import Mathlib

/-!
Verification development for the movie/book CRUD model layer
(`src/docs/assignment6/src/m/*.mjs`, `src/docs/assignment5/src/m/Movie.mjs`,
and the subtyping-app variant in `src/unnamed/part_000` / `part_001`).

The JavaScript model classes are shallowly embedded:

* JS primitive values become `JSVal` (the model layer only ever stores
  numbers, strings, booleans, `NaN` and `undefined` in its slots);
* a JS object's data slots become a structure whose optional fields model
  slot presence (`none` = slot absent, i.e. reading it yields `undefined`);
* an entity map (`Movie.instances` etc., a JS object used as a map) becomes
  an association list with string keys, mirroring JS property-key coercion;
* code that can throw becomes `Except JSError _`; a thrown constraint
  violation is `JSError.thrown cv`, and an unresolved identifier (the
  source files are ES modules, hence strict mode, where evaluating or
  assigning an undeclared identifier throws `ReferenceError`) becomes
  `JSError.referenceError name`.
-/

namespace Webapp

/-- JS primitive values as stored and passed around by the model layer.
`nan` is kept separate from `num` because `NaN` is not strictly equal to
itself and is falsy. -/
inductive JSVal where
  | undefined
  | nan
  | num (n : Int)
  | str (s : String)
  | jsbool (b : Bool)
deriving DecidableEq

/-- JS truthiness: `undefined`, `NaN`, `0`, `""` and `false` are falsy. -/
def truthy : JSVal → Bool
  | .undefined => false
  | .nan => false
  | .num n => n != 0
  | .str s => s != ""
  | .jsbool b => b

/-- Leading decimal digits of a character list, as a natural number,
`none` when the list does not start with a digit. -/
def leadingNat (cs : List Char) : Option Nat :=
  let ds := cs.takeWhile Char.isDigit
  if ds.isEmpty then none
  else some (ds.foldl (fun a c => 10 * a + (c.toNat - 48)) 0)

/-- The JS `parseInt` on a string: an optional minus sign followed by a
digit prefix parses to that integer (trailing junk ignored, as in JS),
anything else gives `NaN`.  (The embedding ignores leading whitespace,
`+` signs and radix prefixes, which never occur in the values the model
layer feeds to `parseInt`.) -/
def parseIntStr (s : String) : JSVal :=
  match s.data with
  | '-' :: rest =>
      match leadingNat rest with
      | some v => .num (-(v : Int))
      | none => .nan
  | cs =>
      match leadingNat cs with
      | some v => .num (v : Int)
      | none => .nan

/-- The JS `parseInt` applied to a model-layer value: numbers pass through
(the stored numbers are integers), strings are parsed, everything else is
`NaN`. -/
def parseInt : JSVal → JSVal
  | .num n => .num n
  | .str s => parseIntStr s
  | _ => .nan

/-- JS `isNaN` restricted to `parseInt` results (numbers or `NaN`). -/
def jsIsNaN : JSVal → Bool
  | .nan => true
  | _ => false

/-- JS `Number.isInteger`: true exactly for number values (every number the
model layer produces is an integer). -/
def jsIsIntegerNum : JSVal → Bool
  | .num _ => true
  | _ => false

/-- JS `<` against an integer constant, for the comparisons the checkers
perform: a number compares numerically, `NaN`/`undefined` compare false,
and a string is first coerced like `Number` (a pure digit string with
optional sign; other strings coerce to `NaN`, so they compare false). -/
def jsLtNum (v : JSVal) (k : Int) : Bool :=
  match v with
  | .num n => n < k
  | .str s =>
      match s.data with
      | [] => (0 : Int) < k
      | '-' :: rest =>
          match leadingNat rest with
          | some m => rest.all Char.isDigit && (-(m : Int) < k)
          | none => false
      | cs =>
          match leadingNat cs with
          | some m => cs.all Char.isDigit && ((m : Int) < k)
          | none => false
  | .jsbool b => (if b then (1 : Int) else 0) < k
  | _ => false

/-- JS `>` against an integer constant (same coercions as `jsLtNum`). -/
def jsGtNum (v : JSVal) (k : Int) : Bool :=
  match v with
  | .num n => k < n
  | .str s =>
      match s.data with
      | [] => k < 0
      | '-' :: rest =>
          match leadingNat rest with
          | some m => rest.all Char.isDigit && (k < -(m : Int))
          | none => false
      | cs =>
          match leadingNat cs with
          | some m => cs.all Char.isDigit && (k < (m : Int))
          | none => false
  | .jsbool b => k < (if b then (1 : Int) else 0)
  | _ => false

/-- JS strict equality `===` on primitive values: `NaN === NaN` is false,
values of different types are never equal. -/
def jsStrictEq (a b : JSVal) : Bool :=
  match a, b with
  | .nan, _ => false
  | _, .nan => false
  | x, y => x == y

/-- JS property-key coercion `String(v)` for the values used as map keys. -/
def jsToKey : JSVal → String
  | .undefined => "undefined"
  | .nan => "NaN"
  | .num n => toString n
  | .str s => s
  | .jsbool b => toString b

/-- JS string conversion as used in template literals. -/
def jsToDisplay : JSVal → String := jsToKey

/-- JS `typeof v === "string"`. -/
def jsIsString : JSVal → Bool
  | .str _ => true
  | _ => false

/-- Read a possibly absent slot, as the JS getter does (`undefined` when
the slot is absent). -/
def slotGet (v : Option JSVal) : JSVal := v.getD .undefined

/-- JS whitespace (the characters relevant to form input). -/
def isJsWs (c : Char) : Bool := c = ' ' || c = '\t' || c = '\n' || c = '\r'

/-- JS `String.prototype.trim`. -/
def jsTrim (s : String) : String :=
  ⟨((s.data.dropWhile isJsWs).reverse.dropWhile isJsWs).reverse⟩

/-- Equality of `Except` results is decidable componentwise. -/
instance {ε α : Type} [DecidableEq ε] [DecidableEq α] : DecidableEq (Except ε α) := fun a b =>
  match a, b with
  | .ok x, .ok y =>
      if h : x = y then .isTrue (by rw [h]) else .isFalse (by intro hc; cases hc; exact h rfl)
  | .error x, .error y =>
      if h : x = y then .isTrue (by rw [h]) else .isFalse (by intro hc; cases hc; exact h rfl)
  | .ok _, .error _ => .isFalse (by intro hc; cases hc)
  | .error _, .ok _ => .isFalse (by intro hc; cases hc)

/-!  The constraint-violation taxonomy.

Modelled from the spec: `lib/errorTypes.mjs` is not under `src/`; the
spec's glossary fixes the categories ("mandatory value, range, interval,
uniqueness, string length, pattern, frozen value, referential integrity")
plus the base `ConstraintViolation` and `NoConstraintViolation`. -/

/-- One constraint-violation object, carrying its message as the
constructors in `errorTypes.mjs` do (`NoConstraintViolation` carries
none). -/
inductive CV where
  | noViolation
  | base (msg : String)
  | mandatoryValue (msg : String)
  | range (msg : String)
  | interval (msg : String)
  | uniqueness (msg : String)
  | stringLength (msg : String)
  | pattern (msg : String)
  | frozenValue (msg : String)
  | refIntegrity (msg : String)
deriving DecidableEq

/-- The `instanceof NoConstraintViolation` test. -/
def CV.isNo : CV → Bool
  | .noViolation => true
  | _ => false

/-- The `instanceof UniquenessConstraintViolation` test. -/
def CV.isUniqueness : CV → Bool
  | .uniqueness _ => true
  | _ => false

/-- A JS exception: a thrown constraint violation, or a runtime error
(`ReferenceError` from an unresolved identifier in strict mode,
`TypeError` from dereferencing `undefined` or writing a getter-only
property). -/
inductive JSError where
  | thrown (cv : CV)
  | referenceError (name : String)
  | typeError (msg : String)
deriving DecidableEq

/-!  Association lists with string keys, modelling JS objects used as
entity maps. -/

/-- An entity map: insertion-ordered key/value pairs with unique keys
maintained by `aset`. -/
abbrev AList (α : Type) := List (String × α)

/-- Property read `m[k]`. -/
def aget {α : Type} : AList α → String → Option α
  | [], _ => none
  | p :: rest, k => if p.1 = k then some p.2 else aget rest k

/-- Property write `m[k] = v`: replaces in place, else appends. -/
def aset {α : Type} : AList α → String → α → AList α
  | [], k, v => [(k, v)]
  | p :: rest, k, v => if p.1 = k then (k, v) :: rest else p :: aset rest k v

/-- Property delete `delete m[k]`. -/
def adel {α : Type} : AList α → String → AList α
  | [], _ => []
  | p :: rest, k => if p.1 = k then adel rest k else p :: adel rest k

end Webapp

/-!  The assignment6 model classes
(`src/docs/assignment6/src/m/{Person,Movie,Book,Actor,Director,Employee}.mjs`).

Module-scope facts that matter (each file is an ES module, strict mode):
* `Person.mjs` imports `cloneObject` and five violation classes; it does
  NOT import `Movie` or `Actor`, so `Person.destroy` hits an unresolved
  identifier on its first loop header.
* `Movie.mjs` imports `NoConstraintViolation`, `MandatoryValue…`,
  `Range…`, `Interval…`, `Uniqueness…` and `StringLength…` but NOT
  `ConstraintViolation`, NOT `FrozenValueConstraintViolation` and NOT
  `isIntegerOrIntegerString`, so every code path that mentions one of
  those throws `ReferenceError`.
* `Actor.mjs` imports only `Person` and `cloneObject`, and
  `Actor.checkAgent` reads the undeclared identifier `director_id`.
-/

namespace A6

open Webapp

/-- A `Person` (or `Actor`/`Director`/`Employee` base part) instance:
`_personId` (an integer, stored through `parseInt`) and `_name`.
`directedMovies` mirrors a property that NO assignment6 code ever writes
(the back-reference bookkeeping exists only in the assignment5 `Movie`
variant, see `A5` below), so it is `none` on every constructed person. -/
structure PersonRec where
  personId : JSVal
  name : JSVal
  directedMovies : Option (List String) := none
deriving DecidableEq

/-- A `Movie` instance's data slots.  There is no `episodeNo` field:
assignment6 `Movie` declares `get episodeNo` but no setter, so
`this.episodeNo = …` throws `TypeError` in strict mode and no instance
ever carries an `_episodeNo` slot.  `director` models the `_director`
slot: `none` = slot absent, `some dv` = slot present holding the
(possibly `undefined`) result of `Person.instances[director_id]`. -/
structure MovieRec where
  movieId : JSVal
  title : JSVal
  releaseDate : JSVal
  director : Option (Option PersonRec) := none
  actors : Option (AList (Option PersonRec)) := none
  category : Option JSVal := none
  tvSeriesName : Option JSVal := none
  about : Option JSVal := none
deriving DecidableEq

/-- A `Book` instance's data slots (`_isbn` is always set by the
constructor through the validating setter; the other five slots may be
absent). -/
structure BookRec where
  isbn : JSVal
  title : Option JSVal := none
  year : Option JSVal := none
  category : Option JSVal := none
  subjectArea : Option JSVal := none
  about : Option JSVal := none
deriving DecidableEq

/-- The class-level entity maps of the assignment6 app:
`Person.instances`, the three `Person.subtypes` maps (`Actor`,
`Director`, `Employee` — each module pushes itself onto
`Person.subtypes`), `Movie.instances` and `Book.instances`. -/
structure DB6 where
  persons : AList PersonRec := []
  actors : AList PersonRec := []
  directors : AList PersonRec := []
  employees : AList PersonRec := []
  movies : AList MovieRec := []
  books : AList BookRec := []
deriving DecidableEq

/-- The maps of `Person.subtypes`, in push order. -/
def DB6.subtypeMaps (db : DB6) : List (AList PersonRec) :=
  [db.actors, db.directors, db.employees]

/-- `Person.checkPersonId` (Person.mjs 27-39): falsy ids pass (optional
as an IdRef); otherwise the id is `parseInt`-converted and must be an
integer `≥ 1`. -/
def Person.checkPersonId (id : JSVal) : CV :=
  if !truthy id then .noViolation
  else
    let idP := parseInt id
    if jsIsNaN idP || !jsIsIntegerNum idP || jsLtNum idP 1 then
      .range "The person ID must be a positive integer!"
    else .noViolation

/-- `Person.checkPersonIdAsId` (Person.mjs 43-60), with `DirectType`'s
instance map and class name passed explicitly. -/
def Person.checkPersonIdAsId (directInstances : AList PersonRec)
    (typeName : String) (id : JSVal) : CV :=
  let idP := parseInt id
  if jsIsNaN idP then
    .mandatoryValue "A positive integer value for the person ID is required!"
  else
    let vr := Person.checkPersonId idP
    if vr.isNo then
      if (aget directInstances (jsToKey idP)).isSome then
        .uniqueness ("There is already a " ++ typeName ++ " record with this person ID!")
      else .noViolation
    else vr

/-- `Person.checkPersonIdAsIdRef` (Person.mjs 61-82): on a passing basic
check and truthy id, the id must name an entry of `Person.instances` or
strictly equal (`===`) the `personId` of some subtype instance. -/
def Person.checkPersonIdAsIdRef (db : DB6) (id : JSVal) : CV :=
  let vr := Person.checkPersonId id
  if (vr.isNo || vr.isUniqueness) && truthy id then
    if (aget db.persons (jsToKey id)).isNone then
      let searchResult :=
        db.subtypeMaps.any (fun m => m.any (fun p => jsStrictEq p.2.personId id))
      if searchResult then .noViolation
      else .refIntegrity "There is no person record with this person ID!"
    else vr
  else vr

/-- `Person.checkName` (Person.mjs 97-107). -/
def Person.checkName (name : JSVal) : CV :=
  if !truthy name then .mandatoryValue "A name must be provided!"
  else if !jsIsString name || jsTrim (jsToKey name) = "" then
    .range "The name must be a non-empty string!"
  else .noViolation

/-- The `Person` constructor (Person.mjs 19-23): both properties are
assigned through their validating setters; `set personId` stores
`parseInt(id)`. -/
def Person.construct (directInstances : AList PersonRec) (typeName : String)
    (personId name : JSVal) : Except JSError PersonRec := do
  let pid ←
    match Person.checkPersonIdAsId directInstances typeName personId with
    | .noViolation => Except.ok (parseInt personId)
    | cv => Except.error (.thrown cv)
  let nm ←
    match Person.checkName name with
    | .noViolation => Except.ok name
    | cv => Except.error (.thrown cv)
  Except.ok { personId := pid, name := nm }

/-- `Person.add` (Person.mjs 142-154): construct inside `try`; on any
exception the map is untouched, otherwise the new object is stored under
its `personId` key. -/
def Person.add (db : DB6) (personId name : JSVal) : DB6 :=
  match Person.construct db.persons "Person" personId name with
  | .error _ => db
  | .ok p => { db with persons := aset db.persons (jsToKey p.personId) p }

/-- `Person.destroy` (Person.mjs 185-207).  Its first statement iterates
`Object.keys( Movie.instances)`, but `Person.mjs` never imports `Movie`
(importing it would be circular: `Movie.mjs` imports `Person`), so in
strict module scope the evaluation of `Movie.instances` throws
`ReferenceError` before anything is modified.  (Were `Movie` in scope,
the second loop would still crash: it reads `movie.removeActor` with
`movie` a `const` of the first loop's body, out of scope there.) -/
def Person.destroy (db : DB6) (personId : JSVal) : Except JSError DB6 := do
  let _movies ← (Except.error (.referenceError "Movie") : Except JSError (AList MovieRec))
  let _ := personId
  let _ := db
  Except.ok db

/-- Modelled from the spec: `lib/Enumeration.mjs` is not under `src/`.
The spec's glossary describes "an enumerated category discriminator";
the view code (`src/unnamed/part_003`, "enum literal indexes start
with 1") shows labels are numbered from 1 and `MAX` is the label count.
`MovieCategoryEL = new Enumeration(["Biography","TvSeriesEpisode"])`. -/
def MovieCategoryEL.BIOGRAPHY : Int := 1

/-- Second movie category label. -/
def MovieCategoryEL.TVSERIESEPISODE : Int := 2

/-- `Movie.checkMovieID` (Movie.mjs 47-55). -/
def Movie.checkMovieID (id : JSVal) : CV :=
  if !jsIsIntegerNum (parseInt id) then
    .range "The movie id must be a positive integer!"
  else if jsLtNum id 0 then
    .interval "The id must have a postitive value!"
  else .noViolation

/-- `Movie.checkMovieIdAsId` (Movie.mjs 57-71): basic check, then
mandatory and uniqueness against `Movie.instances`. -/
def Movie.checkMovieIdAsId (movies : AList MovieRec) (id : JSVal) : CV :=
  let vr := Movie.checkMovieID id
  if vr.isNo then
    if !truthy id then
      .mandatoryValue "A value for the movieID must be provided!"
    else if (aget movies (jsToKey id)).isSome then
      .uniqueness "There is already a movie record with this id!"
    else .noViolation
  else vr

/-- `Movie.checkTitle` (Movie.mjs 86-98). -/
def Movie.checkTitle (tit : JSVal) : CV :=
  if !truthy tit then .mandatoryValue "A title must be provided!"
  else if !jsIsString tit || jsTrim (jsToKey tit) = "" then
    .range "The title must be a non-empty string!"
  else if jsIsString tit && (jsToKey tit).length > 120 then
    .stringLength "The title must have at most 120 characters!"
  else .noViolation

/-- Splitting a character list at `'-'` separators (the `"-"`-split of
the date string). -/
def splitDashes : List Char → List (List Char)
  | [] => [[]]
  | c :: rest =>
      let r := splitDashes rest
      if c = '-' then [] :: r
      else
        match r with
        | h :: t => (c :: h) :: t
        | [] => [[c]]

/-- A date code for an ISO `YYYY-MM-DD` string: monotone in the
year/month/day triple, `none` when the string is not of that shape.
This models the only date operations the checker performs —
`Date.parse(rd)` being truthy and `new Date(rd) < new Date("1895-12-28")`
— for the ISO date strings the forms supply. -/
def isoDateCode (s : String) : Option Int :=
  match (splitDashes s.data).map (fun cs => String.mk cs) with
  | [ys, ms, ds] =>
      if ys ≠ "" && ms ≠ "" && ds ≠ "" &&
         ys.data.all Char.isDigit && ms.data.all Char.isDigit && ds.data.all Char.isDigit then
        match leadingNat ys.data, leadingNat ms.data, leadingNat ds.data with
        | some y, some m, some d =>
            if 1 ≤ m && m ≤ 12 && 1 ≤ d && d ≤ 31 then
              some (512 * (y : Int) + 32 * (m : Int) + (d : Int))
            else none
        | _, _, _ => none
      else none
  | _ => none

/-- The date code of the lower bound `"1895-12-28"`. -/
def lowerBoundDateCode : Int := 512 * 1895 + 32 * 12 + 28

/-- `Movie.checkReleaseDate` (Movie.mjs 113-126).  Note the `"1970-01-01"`
special case: `Date.parse` of the epoch date is `0`, which is falsy, so
the source's `!Date.parse(rd)` guard rejects exactly that date as a
range violation. -/
def Movie.checkReleaseDate (rd : JSVal) : CV :=
  if !truthy rd then .mandatoryValue "A releasedate must be provided!"
  else
    match rd with
    | .str s =>
        match isoDateCode s with
        | none => .range "The releasedate must be a date in format YYYY-MM-DD!"
        | some c =>
            if s = "1970-01-01" then
              .range "The releasedate must be a date in format YYYY-MM-DD!"
            else if c < lowerBoundDateCode then
              .interval "The release date has to be later or equal than 1895-12-28!"
            else .noViolation
    | _ => .range "The releasedate must be a date in format YYYY-MM-DD!"

/-- `Movie.checkDirector` (Movie.mjs 141-149). -/
def Movie.checkDirector (db : DB6) (director_id : JSVal) : CV :=
  if !truthy director_id then .mandatoryValue "A director must be provided"
  else Person.checkPersonIdAsIdRef db director_id

/-- An argument to `set director` / `addActor`: "can be an ID reference
or an object reference" (`typeof d !== "object"` distinguishes them). -/
inductive ObjArg where
  | scalar (v : JSVal)
  | objRef (p : PersonRec)
deriving DecidableEq

/-- `set director` (Movie.mjs 151-165): falsy unsets the slot; otherwise
the id is checked and, on success, the slot receives
`Person.instances[ director_id]` (which is `undefined` when the person
exists only in a subtype map). -/
def Movie.setDirector (db : DB6) (m : MovieRec) (d : ObjArg) :
    Except JSError MovieRec :=
  match d with
  | .scalar v =>
      if !truthy v then Except.ok { m with director := none }
      else
        match Movie.checkDirector db v with
        | .noViolation =>
            Except.ok { m with director := some (aget db.persons (jsToKey v)) }
        | cv => Except.error (.thrown cv)
  | .objRef p =>
      match Movie.checkDirector db p.personId with
      | .noViolation =>
          Except.ok { m with director := some (aget db.persons (jsToKey p.personId)) }
      | cv => Except.error (.thrown cv)

/-- `addActor` (Movie.mjs 171-178) on the `_actors` map: the scalar case
goes through `parseInt`, the object case reads `a.actorId` — a property
no `Person`/`Actor` instance has, so it is `undefined` and the object is
silently skipped.  A truthy id stores `Person.instances[key]` with no
validation at all. -/
def Movie.addActorTo (db : DB6) (curActors : AList (Option PersonRec))
    (a : ObjArg) : AList (Option PersonRec) :=
  let actor_id : JSVal :=
    match a with
    | .scalar v => parseInt v
    | .objRef _ => .undefined
  if truthy actor_id then
    let key := jsToKey actor_id
    aset curActors key (aget db.persons key)
  else curActors

/-- `set actors` (Movie.mjs 188-199): fresh `_actors = {}`, then
`addActor` per element (the array and map cases both reduce to a
sequence of `addActor` calls). -/
def Movie.setActors (db : DB6) (m : MovieRec) (a : List ObjArg) : MovieRec :=
  { m with actors := some (a.foldl (Movie.addActorTo db) []) }

/-- `Movie.checkCategory` (Movie.mjs 205-215): `c === undefined` passes;
any other value evaluates `isIntegerOrIntegerString( c)`, an identifier
`Movie.mjs` never imports from `util.mjs`, so it throws
`ReferenceError`. -/
def Movie.checkCategory (c : JSVal) : Except JSError CV :=
  if c = .undefined then Except.ok .noViolation
  else Except.error (.referenceError "isIntegerOrIntegerString")

/-- `set category` (Movie.mjs 217-230): on an already-set category the
code evaluates `new FrozenValueConstraintViolation(…)`, but `Movie.mjs`
never imports that class, so it throws `ReferenceError` instead of the
violation; otherwise `Movie.checkCategory` runs (see above). -/
def Movie.setCategory (m : MovieRec) (c : JSVal) : Except JSError MovieRec := do
  if truthy (slotGet m.category) then
    Except.error (.referenceError "FrozenValueConstraintViolation")
  else
    let vr ← Movie.checkCategory c
    if vr.isNo then Except.ok { m with category := some (parseInt c) }
    else Except.error (.thrown vr)

/-- `Movie.checkTvSeriesName` (Movie.mjs 236-250): the "must not be
provided" branch evaluates `new ConstraintViolation(…)`, not imported by
`Movie.mjs`, hence `ReferenceError`. -/
def Movie.checkTvSeriesName (tsn c : JSVal) : Except JSError CV :=
  let cat := parseInt c
  if jsStrictEq cat (.num MovieCategoryEL.TVSERIESEPISODE) && !truthy tsn then
    Except.ok (.mandatoryValue "A tv series name must be provided for a tv series episode!")
  else if !jsStrictEq cat (.num MovieCategoryEL.TVSERIESEPISODE) && truthy tsn then
    Except.error (.referenceError "ConstraintViolation")
  else if truthy tsn && (!jsIsString tsn || jsTrim (jsToKey tsn) = "") then
    Except.ok (.range "The tv series name must be a non-empty string!")
  else Except.ok .noViolation

/-- `set tvSeriesName` (Movie.mjs 252-259). -/
def Movie.setTvSeriesName (m : MovieRec) (tsn : JSVal) : Except JSError MovieRec := do
  let vr ← Movie.checkTvSeriesName tsn (slotGet m.category)
  if vr.isNo then Except.ok { m with tvSeriesName := some tsn }
  else Except.error (.thrown vr)

/-- `Movie.checkEpisodeNo` (Movie.mjs 265-279): the "must not be
provided" branch evaluates the unimported `ConstraintViolation`
(`ReferenceError`), and the range branch reads the undeclared
identifier `id` instead of `en` (`ReferenceError` whenever a truthy
episode number reaches it). -/
def Movie.checkEpisodeNo (en c : JSVal) : Except JSError CV :=
  let cat := parseInt c
  if jsStrictEq cat (.num MovieCategoryEL.TVSERIESEPISODE) && !truthy en then
    Except.ok (.mandatoryValue "A episode number must be provided for a tv series episode!")
  else if !jsStrictEq cat (.num MovieCategoryEL.TVSERIESEPISODE) && truthy en then
    Except.error (.referenceError "ConstraintViolation")
  else if truthy en then
    Except.error (.referenceError "id")
  else Except.ok .noViolation

/-- `Movie.checkAbout` (Movie.mjs 285-296): the "must not be provided"
branch evaluates the unimported `ConstraintViolation`; the final branch
is `return validationResult = Person.checkPersonIdAsIdRef( about)` —
the call evaluates fine, but assigning the undeclared `validationResult`
throws `ReferenceError` in strict mode. -/
def Movie.checkAbout (db : DB6) (about c : JSVal) : Except JSError CV :=
  let _ := db
  let cat := parseInt c
  if jsStrictEq cat (.num MovieCategoryEL.BIOGRAPHY) && !truthy about then
    Except.ok (.mandatoryValue "A person must be provided for about!")
  else if !jsStrictEq cat (.num MovieCategoryEL.BIOGRAPHY) && truthy about then
    Except.error (.referenceError "ConstraintViolation")
  else
    Except.error (.referenceError "validationResult")

/-- `set about` (Movie.mjs 298-305). -/
def Movie.setAbout (db : DB6) (m : MovieRec) (about : JSVal) :
    Except JSError MovieRec := do
  let vr ← Movie.checkAbout db about (slotGet m.category)
  if vr.isNo then Except.ok { m with about := some about }
  else Except.error (.thrown vr)

/-- The single record parameter of the `Movie` constructor
(Movie.mjs 28): absent fields destructure to `undefined`. -/
structure MovieSlots where
  movieId : JSVal := .undefined
  title : JSVal := .undefined
  releaseDate : JSVal := .undefined
  director : Option ObjArg := none
  director_id : JSVal := .undefined
  actors : Option (List ObjArg) := none
  actorsIdRef : Option (List ObjArg) := none
  category : JSVal := .undefined
  tvSeriesName : JSVal := .undefined
  episodeNo : JSVal := .undefined
  about : JSVal := .undefined
deriving DecidableEq

/-- JS `director || director_id`: an object reference is always truthy;
a falsy scalar (in particular an absent `director`, i.e. `undefined`)
falls through to `director_id`. -/
def dirOrElse (director : Option ObjArg) (director_id : JSVal) : ObjArg :=
  match director with
  | some (.objRef p) => .objRef p
  | some (.scalar v) => if truthy v then .scalar v else .scalar director_id
  | none => .scalar director_id

/-- The `Movie` constructor (Movie.mjs 28-41), assigning each property
through its setter in source order.  A truthy `episodeNo` hits the
getter-only `episodeNo` property (`Movie` declares no `set episodeNo`),
which throws `TypeError` in strict mode. -/
def Movie.construct (db : DB6) (s : MovieSlots) : Except JSError MovieRec := do
  let mid ←
    match Movie.checkMovieIdAsId db.movies s.movieId with
    | .noViolation => Except.ok s.movieId
    | cv => Except.error (.thrown cv)
  let tit ←
    match Movie.checkTitle s.title with
    | .noViolation => Except.ok s.title
    | cv => Except.error (.thrown cv)
  let rd ←
    match Movie.checkReleaseDate s.releaseDate with
    | .noViolation => Except.ok s.releaseDate
    | cv => Except.error (.thrown cv)
  let m0 : MovieRec := { movieId := mid, title := tit, releaseDate := rd }
  let m1 ← Movie.setDirector db m0 (dirOrElse s.director s.director_id)
  let m2 :=
    match s.actors <|> s.actorsIdRef with
    | some a => Movie.setActors db m1 a
    | none => m1
  let m3 ← if truthy s.category then Movie.setCategory m2 s.category else Except.ok m2
  let m4 ←
    if truthy s.tvSeriesName then Movie.setTvSeriesName m3 s.tvSeriesName
    else Except.ok m3
  let m5 ←
    if truthy s.episodeNo then
      (Except.error (.typeError "Cannot set property episodeNo, which has only a getter")
        : Except JSError MovieRec)
    else Except.ok m4
  let m6 ← if truthy s.about then Movie.setAbout db m5 s.about else Except.ok m5
  Except.ok m6

/-- `Movie.prototype.toString` (Movie.mjs 310-318): dereferences
`this.director.toString()`, which throws `TypeError` when the
`_director` slot is absent or holds `undefined`; the optional parts are
guarded by truthiness tests. -/
def Movie.toStringE (m : MovieRec) : Except JSError String :=
  match m.director with
  | some (some p) =>
      let base :=
        "Movie\x7b ID: " ++ jsToDisplay m.movieId ++ ", title: " ++ jsToDisplay m.title ++
        ", releaseDate: " ++ jsToDisplay m.releaseDate ++
        ", director: Person\x7b persID: " ++ jsToDisplay p.personId ++
        ", name: " ++ jsToDisplay p.name ++ " \x7d"
      let withActors :=
        match m.actors with
        | some acts => base ++ ", actors: " ++ String.intercalate "," (acts.map (·.1)) ++ " "
        | none => base
      Except.ok (withActors ++ "\x7d")
  | _ => Except.error (.typeError "Cannot read properties of undefined")

/-- `Movie.add` (Movie.mjs 340-348): constructor and insertion inside
`try`; the `console.log( movie.toString())` after the insertion may
throw `TypeError` (director-less movie), but the `catch` swallows it and
the already-performed insertion persists, so the net map effect of a
successful construction is exactly the insertion. -/
def Movie.add (db : DB6) (s : MovieSlots) : DB6 :=
  match Movie.construct db s with
  | .error _ => db
  | .ok m => { db with movies := aset db.movies (jsToKey m.movieId) m }

/-- `Movie.destroy` (Movie.mjs 400-407): when the key exists, the movie
is first `toString`-ed for the log (which can throw, uncaught) and then
deleted; otherwise only a log line is emitted. -/
def Movie.destroy (db : DB6) (movieId : JSVal) : Except JSError DB6 :=
  match aget db.movies (jsToKey movieId) with
  | some m => do
      let _ ← Movie.toStringE m
      Except.ok { db with movies := adel db.movies (jsToKey movieId) }
  | none => Except.ok db

/-- `Actor.checkAgent` (Actor.mjs 30-38): its first statement is
`if(!director_id)`, but `director_id` is not declared anywhere in
`Actor.mjs` (the parameter is named `agent_id`), so the check throws
`ReferenceError` for every input.  (Had it got further, the then-branch
`new MandatoryValueConstraintViolation(…)` would also fail: `Actor.mjs`
imports nothing from `errorTypes.mjs`.) -/
def Actor.checkAgent (agent_id : JSVal) : Except JSError CV :=
  let _ := agent_id
  Except.error (.referenceError "director_id")

/-- Modelled from the spec (`lib/Enumeration.mjs` not under `src/`):
`BookCategoryEL = new Enumeration(["Textbook","Biography"])`, labels
numbered from 1. -/
def BookCategoryEL.TEXTBOOK : Int := 1

/-- Second book category label. -/
def BookCategoryEL.BIOGRAPHY : Int := 2

/-- The label count of the book category enumeration. -/
def BookCategoryEL.MAX : Int := 2

/-- `isIntegerOrIntegerString` (util.mjs): `Number.isInteger( parseInt(x))`. -/
def isIntegerOrIntegerString (x : JSVal) : Bool := jsIsIntegerNum (parseInt x)

/-- JS word character, for the `\b` and `\d` of the ISBN regex. -/
def isWordChar (c : Char) : Bool := c.isDigit || c.isAlpha || c = '_'

/-- Does `\d{9}(\d|X)\b` match at the head of the character list? -/
def isbnChunkAt : List Char → Bool
  | d1 :: d2 :: d3 :: d4 :: d5 :: d6 :: d7 :: d8 :: d9 :: c10 :: rest =>
      [d1, d2, d3, d4, d5, d6, d7, d8, d9].all Char.isDigit &&
      (c10.isDigit || c10 = 'X') &&
      (match rest with
       | [] => true
       | r :: _ => !isWordChar r)
  | _ => false

/-- Scan for a `\b\d{9}(\d|X)\b` match anywhere (`RegExp.prototype.test`),
`prev` being the character before the current position. -/
def isbnScan : Option Char → List Char → Bool
  | _, [] => false
  | prev, c :: cs =>
      ((match prev with
        | none => true
        | some pc => !isWordChar pc) && isbnChunkAt (c :: cs)) ||
      isbnScan (some c) cs

/-- The test `/\b\d{9}(\d|X)\b/.test( isbn)` of `Book.checkIsbn`. -/
def isbnPatternTest (s : String) : Bool := isbnScan none s.data

/-- `Book.checkIsbn` (Book.mjs 38-49). -/
def Book.checkIsbn (isbn : JSVal) : CV :=
  if !truthy isbn then .noViolation
  else if !jsIsString isbn || jsTrim (jsToKey isbn) = "" then
    .range "The ISBN must be a non-empty string!"
  else if !isbnPatternTest (jsToKey isbn) then
    .pattern "The ISBN must be a 10-digit string or a 9-digit string followed by 'X'!"
  else .noViolation

/-- `Book.checkIsbnAsId` (Book.mjs 50-64). -/
def Book.checkIsbnAsId (books : AList BookRec) (isbn : JSVal) : CV :=
  let vr := Book.checkIsbn isbn
  if vr.isNo then
    if !truthy isbn then
      .mandatoryValue "A value for the ISBN must be provided!"
    else if (aget books (jsToKey isbn)).isSome then
      .uniqueness "There is already a book record with this ISBN!"
    else .noViolation
  else vr

/-- `Book.checkCategory` (Book.mjs 78-88); unlike `Movie.mjs`, `Book.mjs`
does import `isIntegerOrIntegerString`, so this checker is total. -/
def Book.checkCategory (c : JSVal) : CV :=
  if c = .undefined then .noViolation
  else if !isIntegerOrIntegerString c || jsLtNum (parseInt c) 1 ||
      jsGtNum (parseInt c) BookCategoryEL.MAX then
    .range ("Invalid value for category: " ++ jsToDisplay c)
  else .noViolation

/-- `set category` of `Book` (Book.mjs 89-102); `Book.mjs` imports
`FrozenValueConstraintViolation`, so the frozen branch really throws the
violation (contrast `Movie.setCategory`). -/
def Book.setCategory (b : BookRec) (c : JSVal) : Except JSError BookRec :=
  if truthy (slotGet b.category) then
    Except.error (.thrown (.frozenValue "The category cannot be changed!"))
  else
    match Book.checkCategory c with
    | .noViolation => Except.ok { b with category := some (parseInt c) }
    | cv => Except.error (.thrown cv)

/-- `Book.checkSubjectArea` (Book.mjs 104-118). -/
def Book.checkSubjectArea (sA c : JSVal) : CV :=
  let cat := parseInt c
  if jsStrictEq cat (.num BookCategoryEL.TEXTBOOK) && !truthy sA then
    .mandatoryValue "A subject area must be provided for a textbook!"
  else if !jsStrictEq cat (.num BookCategoryEL.TEXTBOOK) && truthy sA then
    .base "A subject area must not be provided if the book is not a textbook!"
  else if truthy sA && (!jsIsString sA || jsTrim (jsToKey sA) = "") then
    .range "The subject area must be a non-empty string!"
  else .noViolation

/-- `set subjectArea` (Book.mjs 119-126). -/
def Book.setSubjectArea (b : BookRec) (v : JSVal) : Except JSError BookRec :=
  match Book.checkSubjectArea v (slotGet b.category) with
  | .noViolation => Except.ok { b with subjectArea := some v }
  | cv => Except.error (.thrown cv)

/-- `Book.checkAbout` (Book.mjs 128-143). -/
def Book.checkAbout (a c : JSVal) : CV :=
  let cat := parseInt c
  if jsStrictEq cat (.num BookCategoryEL.BIOGRAPHY) && !truthy a then
    .mandatoryValue "A biography book record must have an 'about' field!"
  else if !jsStrictEq cat (.num BookCategoryEL.BIOGRAPHY) && truthy a then
    .base "An 'about' field value must not be provided if the book is not a biography!"
  else if truthy a && (!jsIsString a || jsTrim (jsToKey a) = "") then
    .range "The 'about' field value must be a non-empty string!"
  else .noViolation

/-- `set about` of `Book` (Book.mjs 144-151). -/
def Book.setAbout (b : BookRec) (v : JSVal) : Except JSError BookRec :=
  match Book.checkAbout v (slotGet b.category) with
  | .noViolation => Except.ok { b with about := some v }
  | cv => Except.error (.thrown cv)

/-- The single record parameter of the `Book` constructor (Book.mjs 26). -/
structure BookSlots where
  isbn : JSVal := .undefined
  title : JSVal := .undefined
  year : JSVal := .undefined
  category : JSVal := .undefined
  subjectArea : JSVal := .undefined
  about : JSVal := .undefined
deriving DecidableEq

/-- The `Book` constructor (Book.mjs 26-34): `isbn` through the
validating setter, `title`/`year` stored with no validation, the three
optional properties only on truthy values. -/
def Book.construct (books : AList BookRec) (s : BookSlots) :
    Except JSError BookRec := do
  let ib ←
    match Book.checkIsbnAsId books s.isbn with
    | .noViolation => Except.ok s.isbn
    | cv => Except.error (.thrown cv)
  let b0 : BookRec := { isbn := ib, title := some s.title, year := some s.year }
  let b1 ← if truthy s.category then Book.setCategory b0 s.category else Except.ok b0
  let b2 ←
    if truthy s.subjectArea then Book.setSubjectArea b1 s.subjectArea
    else Except.ok b1
  let b3 ← if truthy s.about then Book.setAbout b2 s.about else Except.ok b2
  Except.ok b3

/-- `Book.add` (Book.mjs 192-204): construct inside `try`; on any
exception the map is untouched, otherwise insertion under the `isbn`
key. -/
def Book.add (db : DB6) (s : BookSlots) : DB6 :=
  match Book.construct db.books s with
  | .error _ => db
  | .ok b => { db with books := aset db.books (jsToKey b.isbn) b }

/-- `cloneObject` (lib/util.mjs, `src/unnamed/part_003` 854-881) applied
to a `Book`: copies every own property holding a number, string, boolean
or date; an `undefined`-valued slot is skipped (its `typeof` matches no
branch), which is value-equal anyway since reading the absent slot
yields `undefined` again.  `_isbn` always holds a validated string. -/
def cloneSlot (v : Option JSVal) : Option JSVal :=
  match v with
  | some .undefined => none
  | other => other

/-- `cloneObject` on a `Book` (see `cloneSlot` above for the per-slot
behaviour). -/
def cloneBook (b : BookRec) : BookRec :=
  { isbn := b.isbn, title := cloneSlot b.title, year := cloneSlot b.year,
    category := cloneSlot b.category, subjectArea := cloneSlot b.subjectArea,
    about := cloneSlot b.about }

/-- Field-for-field (value) equality of two book records: each of the
six fields reads the same value (an absent slot reads `undefined`). -/
def BookRec.sameFields (a b : BookRec) : Prop :=
  a.isbn = b.isbn ∧ slotGet a.title = slotGet b.title ∧
  slotGet a.year = slotGet b.year ∧ slotGet a.category = slotGet b.category ∧
  slotGet a.subjectArea = slotGet b.subjectArea ∧ slotGet a.about = slotGet b.about

/-- The slots record of `Book.update` (Book.mjs 213). -/
structure BookUpdateSlots where
  isbn : JSVal := .undefined
  title : JSVal := .undefined
  year : JSVal := .undefined
  category : JSVal := .undefined
  subjectArea : JSVal := .undefined
  about : JSVal := .undefined
deriving DecidableEq

/-- The `title` step of `Book.update` (Book.mjs 218-221); `set title`
has no validation. -/
def Book.updateTitleStep (b : BookRec) (title : JSVal) : BookRec :=
  if truthy title && !jsStrictEq (slotGet b.title) title then
    { b with title := some title }
  else b

/-- The `year` step of `Book.update` (Book.mjs 222-225); `set year` has
no validation. -/
def Book.updateYearStep (b : BookRec) (year : JSVal) : BookRec :=
  if truthy year && !jsStrictEq (slotGet b.year) year then
    { b with year := some year }
  else b

/-- The `category` step of `Book.update` (Book.mjs 226-237).  Note
`"category" in book` is always true — `category` is an accessor on
`Book.prototype` and `in` includes inherited properties — so a provided
empty-string category always throws the "must not be unset" frozen-value
violation. -/
def Book.updateCategoryStep (b : BookRec) (category : JSVal) :
    Except JSError BookRec :=
  if truthy category then
    if slotGet b.category = .undefined then Book.setCategory b category
    else if !jsStrictEq category (slotGet b.category) then
      Except.error (.thrown (.frozenValue "The book category must not be changed!"))
    else Except.ok b
  else if category = .str "" then
    Except.error (.thrown (.frozenValue "The book category must not be unset!"))
  else Except.ok b

/-- The `subjectArea` step of `Book.update` (Book.mjs 238-241). -/
def Book.updateSubjectAreaStep (b : BookRec) (v : JSVal) : Except JSError BookRec :=
  if truthy v && !jsStrictEq (slotGet b.subjectArea) v then
    Book.setSubjectArea b v
  else Except.ok b

/-- The `about` step of `Book.update` (Book.mjs 242-245). -/
def Book.updateAboutStep (b : BookRec) (v : JSVal) : Except JSError BookRec :=
  if truthy v && !jsStrictEq (slotGet b.about) v then
    Book.setAbout b v
  else Except.ok b

/-- The body of `Book.update`'s `try` block, acting on the looked-up
book. -/
def Book.updateBody (b : BookRec) (s : BookUpdateSlots) : Except JSError BookRec := do
  let b1 := Book.updateTitleStep b s.title
  let b2 := Book.updateYearStep b1 s.year
  let b3 ← Book.updateCategoryStep b2 s.category
  let b4 ← Book.updateSubjectAreaStep b3 s.subjectArea
  let b5 ← Book.updateAboutStep b4 s.about
  Except.ok b5

/-- `Book.update` (Book.mjs 213-260).  `cloneObject( book)` runs before
the `try`, so an unknown isbn crashes (`Object.getPrototypeOf` of
`undefined`); in JS the successful mutations act on the live object
already stored in the map (modelled by re-storing the result), and the
`catch` — which catches every exception — restores the clone. -/
def Book.update (books : AList BookRec) (s : BookUpdateSlots) :
    Except JSError (AList BookRec) :=
  match aget books (jsToKey s.isbn) with
  | none => Except.error (.typeError "cloneObject: cannot read prototype of undefined")
  | some book =>
      match Book.updateBody book s with
      | .ok b' => Except.ok (aset books (jsToKey s.isbn) b')
      | .error _ => Except.ok (aset books (jsToKey s.isbn) (cloneBook book))

/-- Modelled from the spec (`lib/Enumeration.mjs` not under `src/`):
`EmployeeCategoryEL = new Enumeration(["Manager"])`. -/
def EmployeeCategoryEL.MANAGER : Int := 1

/-- The label count of the employee category enumeration. -/
def EmployeeCategoryEL.MAX : Int := 1

/-- An `Employee` instance's data slots (Employee.mjs 30-38). -/
structure EmployeeRec where
  personId : JSVal := .undefined
  name : JSVal := .undefined
  empNo : Option JSVal := none
  category : Option JSVal := none
  department : Option JSVal := none
deriving DecidableEq

/-- `Employee.checkCategory` (Employee.mjs 49-60): note the direct
`Number.isInteger( v)` — an integer *string* is rejected here. -/
def Employee.checkCategory (v : JSVal) : CV :=
  if !truthy v then .noViolation
  else if !jsIsIntegerNum v || jsLtNum v 1 || jsGtNum v EmployeeCategoryEL.MAX then
    .range "The value of category must represent an employee type!"
  else .noViolation

/-- `set category` of `Employee` (Employee.mjs 61-74): the frozen branch
throws the (properly imported) violation; otherwise `v = parseInt(v)` is
re-bound before the check and stored. -/
def Employee.setCategory (e : EmployeeRec) (v : JSVal) : Except JSError EmployeeRec :=
  if truthy (slotGet e.category) then
    Except.error (.thrown (.frozenValue "The category cannot be changed!"))
  else
    let vP := parseInt v
    match Employee.checkCategory vP with
    | .noViolation => Except.ok { e with category := some vP }
    | cv => Except.error (.thrown cv)

/-- `Employee.checkDepartment` (Employee.mjs 86-100). -/
def Employee.checkDepartment (d c : JSVal) : CV :=
  let cP := parseInt c
  if jsStrictEq cP (.num EmployeeCategoryEL.MANAGER) && !truthy d then
    .mandatoryValue "A department must be provided for a manager!"
  else if !jsStrictEq cP (.num EmployeeCategoryEL.MANAGER) && truthy d then
    .base "A department must not be provided if the employee is not a manager!"
  else if truthy d && (!jsIsString d || jsTrim (jsToKey d) = "") then
    .range "The department must be a non-empty string!"
  else .noViolation

end A6

/-!  The assignment5 `Movie` variant
(`src/docs/assignment5/src/m/Movie.mjs`): the only code in the
repository that maintains the `directedMovies` back-reference the spec
describes.  Its `Person.mjs` is not under `src/`, so the person side is
modelled from the spec (see the doc comments). -/

namespace A5

open Webapp

/-- Modelled from the spec: assignment5's `Person.mjs` is not under
`src/`.  A person instance with its `directedMovies` map — "a movie's
director also tracks the movie in a `directedMovies` map" — here the
list of movie keys.  An object reference held by a movie's `_director`
slot is modelled by the person's key in `Person.instances`, so a
mutation through the reference is a mutation of the map entry. -/
structure Person5Rec where
  personId : JSVal
  name : JSVal
  directedMovies : List String := []
deriving DecidableEq

/-- Modelled from the spec: the referential-integrity IdRef check of
assignment5's missing `Person.mjs` ("a foreign-key-style scalar
identifier …, resolved at assignment time"): the id must key an entry of
`Person.instances`. -/
def Person5.checkPersonIdAsIdRef (persons : AList Person5Rec) (id : JSVal) : CV :=
  if (aget persons (jsToKey id)).isSome then .noViolation
  else .refIntegrity "There is no person record with this personId!"

/-- `Movie.checkDirector` (assignment5 Movie.mjs 130-138). -/
def Movie5.checkDirector (persons : AList Person5Rec) (director_id : JSVal) : CV :=
  if !truthy director_id then .mandatoryValue "A director must be provided"
  else Person5.checkPersonIdAsIdRef persons director_id

/-- A movie of the assignment5 variant; only the slots the director
setter touches are modelled (`director` holds the key of the referenced
person). -/
structure Movie5Rec where
  movieId : JSVal
  title : JSVal
  director : Option String := none
deriving DecidableEq

/-- The director argument: an ID reference or an object reference
(carrying its `personId`). -/
inductive DirArg5 where
  | scalar (v : JSVal)
  | objRef (personId : JSVal)
deriving DecidableEq

/-- Property write into a JS object used as a set of keys. -/
def listInsert (l : List String) (k : String) : List String :=
  if l.contains k then l else l ++ [k]

/-- Removing `delete person.directedMovies[movieKey]` through an object
reference, i.e. on the referenced map entry. -/
def removeBackref (persons : AList Person5Rec) (dkey mkey : String) :
    AList Person5Rec :=
  match aget persons dkey with
  | some p =>
      aset persons dkey { p with directedMovies := p.directedMovies.filter (· ≠ mkey) }
  | none => persons

/-- `set director` (assignment5 Movie.mjs 140-159): unsetting first
deletes the back reference (crashing with `TypeError` when there is no
current director — the source dereferences `this._director.directedMovies`
unconditionally); assigning checks the id, removes the old back
reference, stores the new object reference and records the movie in the
new director's `directedMovies`. -/
def Movie5.setDirector (persons : AList Person5Rec) (m : Movie5Rec)
    (d : Option DirArg5) : Except JSError (AList Person5Rec × Movie5Rec) :=
  let mkey := jsToKey m.movieId
  let assign : JSVal → Except JSError (AList Person5Rec × Movie5Rec) :=
    fun director_id =>
      match Movie5.checkDirector persons director_id with
      | .noViolation =>
          let persons1 :=
            match m.director with
            | some oldKey => removeBackref persons oldKey mkey
            | none => persons
          let dkey := jsToKey director_id
          match aget persons1 dkey with
          | some p =>
              Except.ok
                (aset persons1 dkey { p with directedMovies := listInsert p.directedMovies mkey },
                 { m with director := some dkey })
          | none => Except.error (.typeError "Cannot set properties of undefined")
      | cv => Except.error (.thrown cv)
  match d with
  | none =>
      match m.director with
      | none => Except.error (.typeError "Cannot read properties of undefined")
      | some oldKey =>
          Except.ok (removeBackref persons oldKey mkey, { m with director := none })
  | some (.scalar v) =>
      if !truthy v then
        match m.director with
        | none => Except.error (.typeError "Cannot read properties of undefined")
        | some oldKey =>
            Except.ok (removeBackref persons oldKey mkey, { m with director := none })
      else assign v
  | some (.objRef pid) => assign pid

end A5

/-!  The subtyping-app variant (`src/unnamed/part_000` = its `Movie.mjs`,
`src/unnamed/part_001` = its `Person.mjs` followed by its html and
`util.mjs`). -/

namespace Sub

open Webapp

/-- A person of the subtyping app (`part_001`): `set personId` stores
the value RAW (no `parseInt`). -/
structure Person0Rec where
  personId : JSVal
  name : JSVal
deriving DecidableEq

/-- `Person.checkPersonId` (`part_001` 27-35). -/
def Person.checkPersonId (pid : JSVal) : CV :=
  if !jsIsIntegerNum (parseInt pid) then
    .range "The person id must be a positive integer!"
  else if jsLtNum pid 0 then
    .interval "The id must have a postitive value!"
  else .noViolation

/-- `Person.checkPersonIdAsIdRef` (`part_001` 49-58). -/
def Person.checkPersonIdAsIdRef (persons : AList Person0Rec) (pid : JSVal) : CV :=
  let vr := Person.checkPersonId pid
  if vr.isNo && truthy pid then
    if (aget persons (jsToKey pid)).isNone then
      .refIntegrity "There is no person record with this personId!"
    else vr
  else vr

/-- A movie of the subtyping app (`part_000`): slots as assigned by its
constructor. -/
structure Movie0Rec where
  movieId : JSVal
  title : JSVal
  director : Option (Option Person0Rec) := none
  actors : Option (AList (Option Person0Rec)) := none
deriving DecidableEq

/-- `Movie.checkMovieID` (`part_000` 36-44). -/
def Movie.checkMovieID (id : JSVal) : CV :=
  if !jsIsIntegerNum (parseInt id) then
    .range "The movie id must be a positive integer!"
  else if jsLtNum id 0 then
    .interval "The id must have a postitive value!"
  else .noViolation

/-- `Movie.checkMovieIDasID` (`part_000` 46-60). -/
def Movie.checkMovieIDasID (movies : AList Movie0Rec) (id : JSVal) : CV :=
  let vr := Movie.checkMovieID id
  if vr.isNo then
    if !truthy id then
      .mandatoryValue "A value for the movieID must be provided!"
    else if (aget movies (jsToKey id)).isSome then
      .uniqueness "There is already a movie record with this id!"
    else .noViolation
  else vr

/-- `Movie.checkTitle` (`part_000` 75-85). -/
def Movie.checkTitle (tit : JSVal) : CV :=
  if !truthy tit then .mandatoryValue "A title must be provided!"
  else if !jsIsString tit || jsTrim (jsToKey tit) = "" then
    .range "The title must be a non-empty string!"
  else if jsIsString tit && (jsToKey tit).length > 120 then
    .stringLength "The title must have at most 120 characters!"
  else .noViolation

/-- `Movie.checkDirector` (`part_000` 101-109): its first statement is
`validationResult = null;` with no `var`/`let`, and ES modules are
strict mode, so the assignment throws `ReferenceError` for every
input. -/
def Movie.checkDirector (director_id : JSVal) : Except JSError CV :=
  let _ := director_id
  Except.error (.referenceError "validationResult")

/-- An argument that may be an ID reference or an object reference. -/
inductive DirArg0 where
  | scalar (v : JSVal)
  | objRef (p : Person0Rec)
deriving DecidableEq

/-- `set director` (`part_000` 111-125): falsy unsets the slot; any
truthy argument reaches `Movie.checkDirector`, which always throws (see
above), so no movie of this variant ever acquires a director slot. -/
def Movie.setDirector (m : Movie0Rec) (d : Option DirArg0) :
    Except JSError Movie0Rec :=
  match d with
  | none => Except.ok { m with director := none }
  | some (.scalar v) =>
      if !truthy v then Except.ok { m with director := none }
      else do
        let _ ← Movie.checkDirector v
        Except.ok m
  | some (.objRef p) => do
      let _ ← Movie.checkDirector p.personId
      Except.ok m

/-- `Movie.checkActor` (`part_000` 131-141). -/
def Movie.checkActor (persons : AList Person0Rec) (actor_id : JSVal) : CV :=
  if !truthy actor_id then .noViolation
  else Person.checkPersonIdAsIdRef persons actor_id

/-- `addActor` (`part_000` 143-156): the object case reads `a.actorId`
(`undefined` on a `Person`); a truthy validated id then evaluates
`Actor.instances[key]` — but `part_000` never imports `Actor`, so that
line throws `ReferenceError`. -/
def Movie.addActor (persons : AList Person0Rec)
    (curActors : AList (Option Person0Rec)) (a : DirArg0) :
    Except JSError (AList (Option Person0Rec)) :=
  let actor_id : JSVal :=
    match a with
    | .scalar v => parseInt v
    | .objRef _ => .undefined
  if truthy actor_id then
    let vr := Movie.checkActor persons actor_id
    if vr.isNo then Except.error (.referenceError "Actor")
    else Except.error (.thrown vr)
  else Except.ok curActors

/-- `set actors` (`part_000` 170-181): fresh `_actors = {}`, then
`addActor` per element. -/
def Movie.setActors (persons : AList Person0Rec) (m : Movie0Rec)
    (a : List DirArg0) : Except JSError Movie0Rec := do
  let acts ← a.foldlM (Movie.addActor persons) ([] : AList (Option Person0Rec))
  Except.ok { m with actors := some acts }

/-- The single record parameter of the `part_000` constructor (line 22):
`{movieId, title, director, actors, actorsIdRef}` — note there is no
`director_id` and no `actorIdRefs` among the destructured names. -/
structure Movie0Slots where
  movieId : JSVal := .undefined
  title : JSVal := .undefined
  director : Option DirArg0 := none
  actors : Option (List DirArg0) := none
  actorsIdRef : Option (List DirArg0) := none
deriving DecidableEq

/-- The `part_000` `Movie` constructor (lines 22-30). -/
def Movie.construct (persons : AList Person0Rec) (movies : AList Movie0Rec)
    (s : Movie0Slots) : Except JSError Movie0Rec := do
  let mid ←
    match Movie.checkMovieIDasID movies s.movieId with
    | .noViolation => Except.ok s.movieId
    | cv => Except.error (.thrown cv)
  let tit ←
    match Movie.checkTitle s.title with
    | .noViolation => Except.ok s.title
    | cv => Except.error (.thrown cv)
  let m0 : Movie0Rec := { movieId := mid, title := tit }
  let m1 ← Movie.setDirector m0 s.director
  let m2 ←
    match s.actors <|> s.actorsIdRef with
    | some a => Movie.setActors persons m1 a
    | none => Except.ok m1
  Except.ok m2

/-- The serialized movie record produced by `Movie.prototype.toJSON`
(`part_000` 191-214). -/
structure MovieRecord0 where
  movieId : Option JSVal := none
  title : Option JSVal := none
  director_id : Option JSVal := none
  actorIdRefs : Option (List JSVal) := none
deriving DecidableEq

/-- `Movie.prototype.toJSON` (`part_000` 191-214): `_movieId`/`_title`
are copied with the prefix stripped; a truthy `_director` is written as
`rec.director_id = this._director.name` — the director's NAME, although
the comment above the line says "convert object reference to ID
reference"; `_actors`, when present, is written as `rec.actorIdRefs`,
the `parseInt`-ed keys. -/
def Movie.toJSON (m : Movie0Rec) : MovieRecord0 :=
  { movieId := some m.movieId,
    title := some m.title,
    director_id :=
      match m.director with
      | some (some p) => some p.name
      | _ => none,
    actorIdRefs :=
      match m.actors with
      | some acts => some (acts.map (fun q => parseIntStr q.1))
      | none => none }

/-- `Movie.saveAll` (`part_000` 321-329): `JSON.stringify` of the
instances map invokes `toJSON` per movie.  (The records hold only
strings and integers for every reachable store, so the
stringify/`JSON.parse` round trip is the identity on them and is not
modelled separately.) -/
def Movie.saveAll (movies : AList Movie0Rec) : AList MovieRecord0 :=
  movies.map (fun q => (q.1, Movie.toJSON q.2))

/-- Destructuring a stored record as the constructor's parameter
(`part_000` 22): the record's `director_id` and `actorIdRefs` keys match
none of the destructured names `director`/`actors`/`actorsIdRef`, so
those three all come out `undefined`. -/
def recordToSlots (r : MovieRecord0) : Movie0Slots :=
  { movieId := slotGet r.movieId, title := slotGet r.title,
    director := none, actors := none, actorsIdRef := none }

/-- `Movie.retrieveAll` (`part_000` 299-317): for each stored key, a new
`Movie` is constructed from the record and stored under that key; a
record whose construction throws is logged and skipped. -/
def Movie.retrieveAll (persons : AList Person0Rec)
    (instances0 : AList Movie0Rec) (stored : AList MovieRecord0) :
    AList Movie0Rec :=
  stored.foldl
    (fun acc q =>
      match Movie.construct persons acc (recordToSlots q.2) with
      | .ok m => aset acc q.1 m
      | .error _ => acc)
    instances0

end Sub

/-!  Concrete fixtures used by the per-claim theorems below. -/

namespace Webapp

/-- Does a stored movie's `_director` slot hold a person object (so that
`toString` does not crash)? -/
def A6.movieHasDirector (q : String × A6.MovieRec) : Bool :=
  match q.2.director with
  | some (some _) => true
  | _ => false

/-- The subtype search of `Person.checkPersonIdAsIdRef`, as a named
predicate: some subtype instance's `personId` is strictly equal to the
id. -/
def A6.subtypeStrictMatch (db : A6.DB6) (id : JSVal) : Bool :=
  db.subtypeMaps.any (fun m => m.any (fun p => jsStrictEq p.2.personId id))

/-- A person record that exists only in `Actor.instances`. -/
def c3actor : A6.PersonRec := { personId := .num 3, name := .str "Al" }

/-- A database whose only person record is the subtype-only actor. -/
def c3db : A6.DB6 := { actors := [("3", c3actor)] }

/-- A movie to assign a director to. -/
def c3movie : A6.MovieRec :=
  { movieId := .num 7, title := .str "T", releaseDate := .str "2000-01-01" }

/-- A person present in `Person.instances`. -/
def c3person : A6.PersonRec := { personId := .num 3, name := .str "Greta" }

/-- A database with that person, for the amended-claim witness. -/
def c3wdb : A6.DB6 := { persons := [("3", c3person)] }

/-- A database with one plain person record, for the `Person.destroy`
counterexample. -/
def c4db : A6.DB6 := { persons := [("1", { personId := .num 1, name := .str "Tom" })] }

/-- The `part_001` person referenced by the round-trip movie. -/
def c2rid : Sub.Person0Rec := { personId := .num 3, name := .str "Ridley Scott" }

/-- `Person.instances` of the subtyping app for the round-trip. -/
def c2persons : Webapp.AList Sub.Person0Rec := [("3", c2rid)]

/-- A movie whose `_director` slot references the person. -/
def c2movie1 : Sub.Movie0Rec :=
  { movieId := .num 1, title := .str "T", director := some (some c2rid) }

/-- A movie with an (empty) `_actors` slot and no director. -/
def c2movie2 : Sub.Movie0Rec :=
  { movieId := .num 2, title := .str "U", actors := some [] }

/-- `Movie.instances` before `saveAll`. -/
def c2movies : Webapp.AList Sub.Movie0Rec := [("1", c2movie1), ("2", c2movie2)]

/-- The director person of the assignment6 back-reference scenario. -/
def c7p3 : A6.PersonRec := { personId := .num 3, name := .str "Sofia" }

/-- Database holding that person in `Person.instances`. -/
def c7db : A6.DB6 := { persons := [("3", c7p3)] }

/-- The movie the director is assigned to. -/
def c7m : A6.MovieRec :=
  { movieId := .num 7, title := .str "T", releaseDate := .str "2000-01-01" }

/-- The assignment5 person for the back-reference witness. -/
def c7p5 : A5.Person5Rec := { personId := .num 3, name := .str "Sofia" }

/-- The assignment5 movie for the back-reference witness. -/
def c7m5 : A5.Movie5Rec := { movieId := .num 7, title := .str "T" }

/-- A database whose movie map holds one director-less movie — exactly
what `Movie.add` with slots lacking a director produces. -/
def c10db : A6.DB6 :=
  A6.Movie.add {} { movieId := .num 1, title := .str "T", releaseDate := .str "2000-01-01" }

/-- A movie whose director slot holds a person, for the amended-claim
witness. -/
def c10movie : A6.MovieRec :=
  { movieId := .num 1, title := .str "T", releaseDate := .str "2000-01-01",
    director := some (some c7p3) }

/-- Database for the amended `Movie.destroy` witness. -/
def c10wdb : A6.DB6 := { movies := [("1", c10movie), ("2", { c10movie with movieId := .num 2 })] }

/-- A stored book for the `Book.update` witness. -/
def c8book : A6.BookRec :=
  { isbn := .str "0553345842", title := some (.str "Old"), year := some (.num 1982) }

/-- `Book.instances` for the `Book.update` witness. -/
def c8books : AList A6.BookRec := [("0553345842", c8book)]

/-- Update slots that hit the frozen-value "must not be unset" branch. -/
def c8slotsFrozen : A6.BookUpdateSlots :=
  { isbn := .str "0553345842", title := .str "New", category := .str "" }

/-- Update slots that change only the title. -/
def c8slotsOk : A6.BookUpdateSlots := { isbn := .str "0553345842", title := .str "New" }

end Webapp

namespace Webapp

theorem aget_aset_self {α : Type} (m : AList α) (k : String) (v : α) :
    aget (aset m k v) k = some v := by
  induction m with
  | nil => simp [aget, aset]
  | cons p rest ih =>
      by_cases h : p.1 = k
      · simp [aset, aget, h]
      · simpa [aset, aget, h] using ih

theorem aget_aset_other {α : Type} (m : AList α) (k k' : String) (v : α)
    (h : k' ≠ k) : aget (aset m k v) k' = aget m k' := by
  induction m with
  | nil => simp [aget, aset, Ne.symm h]
  | cons p rest ih =>
      by_cases hp : p.1 = k
      · simp [aset, aget, hp, Ne.symm h]
      · by_cases hp' : p.1 = k'
        · simp [aset, aget, hp, hp', h]
        · simpa [aset, aget, hp, hp'] using ih

theorem aget_adel_self {α : Type} (m : AList α) (k : String) :
    aget (adel m k) k = none := by
  induction m with
  | nil => simp [aget, adel]
  | cons p rest ih =>
      by_cases h : p.1 = k
      · simpa [adel, h] using ih
      · simpa [adel, aget, h] using ih

theorem aget_adel_other {α : Type} (m : AList α) (k k' : String)
    (h : k' ≠ k) : aget (adel m k) k' = aget m k' := by
  induction m with
  | nil => simp [aget, adel]
  | cons p rest ih =>
      by_cases hp : p.1 = k
      · have hp' : p.1 ≠ k' := by rw [hp]; exact Ne.symm h
        rw [show adel (p :: rest) k = adel rest k by simp [adel, hp]]
        rw [show aget (p :: rest) k' = aget rest k' by simp [aget, hp']]
        exact ih
      · by_cases hp' : p.1 = k'
        · simp [adel, aget, hp, hp', h]
        · simpa [adel, aget, hp, hp'] using ih

theorem aget_all {α : Type} {m : AList α} {k : String} {v : α}
    {f : String × α → Bool} (hget : aget m k = some v) (hall : m.all f) :
    f (k, v) = true := by
  induction m with
  | nil => simp [aget] at hget
  | cons p rest ih =>
      simp only [List.all_cons, Bool.and_eq_true] at hall
      by_cases hp : p.1 = k
      · simp only [aget, hp, if_true, Option.some.injEq] at hget
        have hpkv : p = (k, v) := by
          cases p
          simp only [Prod.mk.injEq]
          exact ⟨hp, hget⟩
        exact hpkv ▸ hall.1
      · simp only [aget, hp, if_false] at hget
        exact ih hget hall.2


/-- C1: the claim says every static field-check function terminates
normally and returns a constraint-violation instance, never throwing.
The code contradicts it — and its own design (the view wires each
checker's returned `.message` into the field's validity state, and the
spec says violations are "returned … instead of being thrown"):
`Movie.checkEpisodeNo` reads the undeclared identifier `id` in its range
branch and the unimported class `ConstraintViolation` in its "must not
be provided" branch, `Movie.checkTvSeriesName` likewise,
`Movie.checkAbout` assigns the undeclared `validationResult`, and
`Actor.checkAgent` reads the undeclared `director_id` — each a strict
mode `ReferenceError`.  `Person.checkName` and `Book.checkIsbn` do
return violation objects on the same style of inputs. -/
theorem c1_checker_crashes :
    A6.Movie.checkEpisodeNo (.str "5") (.num 2) = Except.error (.referenceError "id") ∧
    A6.Movie.checkEpisodeNo (.str "5") (.num 1) =
      Except.error (.referenceError "ConstraintViolation") ∧
    A6.Movie.checkTvSeriesName (.str "x") (.num 1) =
      Except.error (.referenceError "ConstraintViolation") ∧
    A6.Movie.checkAbout {} .undefined .undefined = Except.error (.referenceError "validationResult") ∧
    A6.Actor.checkAgent (.num 3) = Except.error (.referenceError "director_id") ∧
    A6.Person.checkName (.str "Al") = CV.noViolation ∧
    A6.Book.checkIsbn (.str "0553345842") = CV.noViolation := by
  refine ⟨?_, ?_, ?_, ?_, ?_, ?_, ?_⟩ <;> decide

/-- C5: the claim says an assignment to an already-set `category` throws
`FrozenValueConstraintViolation` and a first assignment of an in-range
integer succeeds, for `Movie`, `Book` and `Employee` alike.  True for
`Book` and `Employee`; for `Movie` both paths throw `ReferenceError`
instead, because `Movie.mjs` imports neither
`FrozenValueConstraintViolation` nor `isIntegerOrIntegerString` — a slip
contradicting the file's own use of them. -/
theorem c5_category_frozen_crash :
    A6.Movie.setCategory
        { movieId := .num 1, title := .str "T", releaseDate := .str "2000-01-01" }
        (.num 1) =
      Except.error (.referenceError "isIntegerOrIntegerString") ∧
    A6.Movie.setCategory
        { movieId := .num 1, title := .str "T", releaseDate := .str "2000-01-01",
          category := some (.num 2) }
        (.num 1) =
      Except.error (.referenceError "FrozenValueConstraintViolation") ∧
    A6.Book.setCategory { isbn := .str "0553345842" } (.num 1) =
      Except.ok { isbn := .str "0553345842", category := some (.num 1) } ∧
    A6.Book.setCategory { isbn := .str "0553345842", category := some (.num 2) } (.num 1) =
      Except.error (.thrown (.frozenValue "The category cannot be changed!")) ∧
    A6.Employee.setCategory { personId := .num 9 } (.num 1) =
      Except.ok { personId := .num 9, category := some (.num 1) } ∧
    A6.Employee.setCategory { personId := .num 9, category := some (.num 1) } (.num 1) =
      Except.error (.thrown (.frozenValue "The category cannot be changed!")) := by
  refine ⟨?_, ?_, ?_, ?_, ?_, ?_⟩ <;> decide

/-- C4 counterexample: the claim says `Person.destroy` terminates
normally and removes the person; on a database that does contain person
1, the call throws `ReferenceError` instead (`Person.mjs` never imports
`Movie`, which its first loop reads), removing nothing. -/
theorem c4_destroy_throws :
    aget c4db.persons "1" = some { personId := .num 1, name := .str "Tom" } ∧
    A6.Person.destroy c4db (.num 1) = Except.error (.referenceError "Movie") := by
  exact ⟨by decide, by decide⟩

/-- C4 amended: `Person.destroy` never terminates normally — for every
database and every personId it throws `ReferenceError("Movie")` at its
first loop header and leaves every entity map unchanged (the error is
raised before any mutation). -/
theorem c4_destroy_always_refErrors (db : A6.DB6) (personId : JSVal) :
    A6.Person.destroy db personId = Except.error (.referenceError "Movie") := rfl

/-- C2: the claim says a `saveAll` / fresh-session `retrieveAll` round
trip reconstructs each record's persisted slots with ID references in
place of object references.  The code contradicts its own comment
("convert object reference to ID reference"): `toJSON` (`part_000`)
writes `director_id = this._director.name` — the NAME — and writes the
actors under `actorIdRefs`, a key the constructor never destructures
(it reads `actors`/`actorsIdRef`), so on reload both the `_director`
and `_actors` slots are silently dropped: the round trip of a
two-movie map keeps the keys but loses those slots. -/
theorem c2_roundtrip_loses_slots :
    Sub.Movie.toJSON c2movie1 =
      { movieId := some (.num 1), title := some (.str "T"),
        director_id := some (.str "Ridley Scott") } ∧
    Sub.Movie.retrieveAll c2persons [] (Sub.Movie.saveAll c2movies) =
      [("1", { movieId := .num 1, title := .str "T" }),
       ("2", { movieId := .num 2, title := .str "U" })] ∧
    c2movie1.director = some (some c2rid) ∧
    c2movie2.actors = some [] := by
  refine ⟨?_, ?_, ?_, ?_⟩ <;> decide

/-- C3 counterexample: person 3 exists (only) in `Actor.instances`, and
the IdRef `"3"` (a string, as form values are) is assigned as director.
The claim says the assignment resolves it; instead the subtype search
compares the stored number 3 to the string `"3"` with `===`, finds
nothing, and the setter throws the referential-integrity violation. -/
theorem c3_subtype_string_idref_rejected :
    aget c3db.actors "3" = some c3actor ∧
    c3actor.personId = .num 3 ∧
    parseInt (.str "3") = .num 3 ∧
    A6.Movie.setDirector c3db c3movie (.scalar (.str "3")) =
      Except.error (.thrown (.refIntegrity "There is no person record with this person ID!")) := by
  refine ⟨?_, ?_, ?_, ?_⟩ <;> decide

/-- C3 amended: for a truthy scalar IdRef `v` passing the basic person-id
check, the assignment succeeds — storing `Person.instances[v]`, which is
`undefined` when the person exists only in a subtype map — exactly when
`Person.instances` has the key or some subtype instance's `personId` is
strictly (`===`) equal to `v`; otherwise (in particular when the person
exists only in a subtype map and `v` is a string IdRef, since the
strict comparison of the stored number against the string fails) the
setter throws the referential-integrity violation, leaving the movie
unchanged. -/
theorem c3_idref_resolution (db : A6.DB6) (m : A6.MovieRec) (v : JSVal)
    (htr : truthy v = true) (hck : A6.Person.checkPersonId v = CV.noViolation) :
    (((aget db.persons (jsToKey v)).isSome ∨ A6.subtypeStrictMatch db v = true) →
        A6.Movie.setDirector db m (.scalar v) =
          Except.ok { m with director := some (aget db.persons (jsToKey v)) }) ∧
    ((aget db.persons (jsToKey v)).isNone = true ∧ A6.subtypeStrictMatch db v = false →
        A6.Movie.setDirector db m (.scalar v) =
          Except.error (.thrown (.refIntegrity "There is no person record with this person ID!"))) := by
  have hfold : (db.subtypeMaps.any fun mp => mp.any fun p => jsStrictEq p.2.personId v) =
      A6.subtypeStrictMatch db v := rfl
  constructor
  · intro hcase
    cases hopt : aget db.persons (jsToKey v) with
    | some p =>
        simp [A6.Movie.setDirector, A6.Movie.checkDirector, A6.Person.checkPersonIdAsIdRef,
          htr, hck, hopt, CV.isNo]
    | none =>
        have hsub : A6.subtypeStrictMatch db v = true := by
          rcases hcase with h | h
          · rw [hopt] at h; simp at h
          · exact h
        simp [A6.Movie.setDirector, A6.Movie.checkDirector, A6.Person.checkPersonIdAsIdRef,
          htr, hck, hopt, hfold, hsub, CV.isNo]
  · rintro ⟨hnone, hsub⟩
    have hopt : aget db.persons (jsToKey v) = none := by
      cases h : aget db.persons (jsToKey v) with
      | none => rfl
      | some p => rw [h] at hnone; simp at hnone
    simp [A6.Movie.setDirector, A6.Movie.checkDirector, A6.Person.checkPersonIdAsIdRef,
      htr, hck, hopt, hfold, hsub, CV.isNo]

/-- C3 amended, witnessed: with person 3 present in `Person.instances`,
assigning the string IdRef `"3"` resolves to that entry. -/
theorem c3_idref_resolution_witness :
    A6.Movie.setDirector c3wdb c3movie (.scalar (.str "3")) =
      Except.ok { c3movie with director := some (aget c3wdb.persons (jsToKey (.str "3"))) } :=
  (c3_idref_resolution c3wdb c3movie (.str "3") (by decide) (by decide)).1
    (Or.inl (by decide))

/-- C7 counterexample: in assignment6 a director assignment that
succeeds stores only the movie's `_director` slot; no person record is
touched (the setter's whole effect is the returned movie) and no
assignment6 code ever writes a `directedMovies` property, so the
assigned director's `directedMovies` is still absent afterwards — the
movie is not recorded anywhere on the director's side. -/
theorem c7_no_backref_in_a6 :
    A6.Movie.setDirector c7db c7m (.scalar (.num 3)) =
      Except.ok { c7m with director := some (some c7p3) } ∧
    c7p3.directedMovies = none := by
  exact ⟨by decide, by decide⟩

/-- Inserting a key into a key set makes it a member. -/
theorem mem_listInsert (l : List String) (k : String) : k ∈ A5.listInsert l k := by
  unfold A5.listInsert
  split
  next h => exact List.mem_of_elem_eq_true h
  next h => exact List.mem_append_right _ (List.mem_singleton.mpr rfl)

/-- C7 amended: in the cited assignment6 code a successful director
assignment changes nothing but the movie's own `director` slot — in
particular no person record, hence no `directedMovies` map, ever records
the movie.  The back-reference bookkeeping the spec sentence describes
exists in the assignment5 `Movie` variant: there, after a successful
assignment, the movie's key is a member of the `directedMovies` of the
person the `director` slot now references. -/
theorem c7_directed_movies :
    (∀ (db : A6.DB6) (m : A6.MovieRec) (d : A6.ObjArg) (m' : A6.MovieRec),
      A6.Movie.setDirector db m d = Except.ok m' →
      ∃ dv, m' = { m with director := dv }) ∧
    (∀ (persons : AList A5.Person5Rec) (m : A5.Movie5Rec) (d : A5.DirArg5)
        (persons' : AList A5.Person5Rec) (m' : A5.Movie5Rec),
      A5.Movie5.setDirector persons m (some d) = Except.ok (persons', m') →
      ∀ dkey, m'.director = some dkey →
        ∃ p', aget persons' dkey = some p' ∧ jsToKey m.movieId ∈ p'.directedMovies) := by
  constructor
  · intro db m d m' h
    cases d with
    | scalar v =>
        by_cases hv : truthy v
        · simp only [A6.Movie.setDirector, hv, Bool.not_true, Bool.false_eq_true,
            if_false] at h
          split at h
          · cases h
            exact ⟨_, rfl⟩
          · cases h
        · simp only [A6.Movie.setDirector, hv, Bool.not_false, if_true] at h
          cases h
          exact ⟨none, rfl⟩
    | objRef p =>
        simp only [A6.Movie.setDirector] at h
        split at h
        · cases h
          exact ⟨_, rfl⟩
        · cases h
  · intro persons m d persons' m' h dkey hdk
    cases d with
    | scalar v =>
        by_cases hv : truthy v
        · simp only [A5.Movie5.setDirector, hv, Bool.not_true, Bool.false_eq_true,
            if_false] at h
          split at h
          · split at h
            · cases h
              cases hdk
              exact ⟨_, aget_aset_self _ _ _, mem_listInsert _ _⟩
            · cases h
          · cases h
        · simp only [A5.Movie5.setDirector, hv, Bool.not_false, if_true] at h
          split at h
          · cases h
          · cases h
            cases hdk
    | objRef pid =>
        simp only [A5.Movie5.setDirector] at h
        split at h
        · split at h
          · cases h
            cases hdk
            exact ⟨_, aget_aset_self _ _ _, mem_listInsert _ _⟩
          · cases h
        · cases h

/-- C7 amended, witnessed on the assignment5 variant: assigning person 3
as director of movie 7 records `"7"` in that person's
`directedMovies`. -/
theorem c7_directed_movies_witness :
    ∃ p', aget [("3", { c7p5 with directedMovies := ["7"] })] "3" = some p' ∧
      jsToKey c7m5.movieId ∈ p'.directedMovies :=
  c7_directed_movies.2 [("3", c7p5)] c7m5 (.scalar (.num 3))
    [("3", { c7p5 with directedMovies := ["7"] })] { c7m5 with director := some "3" }
    (by decide) "3" rfl

/-- C10 counterexample: `c10db` is reachable — it is literally
`Movie.add` of slots without a director (the constructor silently unsets
the slot for a falsy director) — and `Movie.destroy` on its key throws
`TypeError`, because the pre-deletion `console.log` calls
`movie.toString()`, which dereferences `this.director`. -/
theorem c10_destroy_throws :
    aget c10db.movies "1" =
      some { movieId := .num 1, title := .str "T", releaseDate := .str "2000-01-01" } ∧
    A6.Movie.destroy c10db (.num 1) =
      Except.error (.typeError "Cannot read properties of undefined") := by
  exact ⟨by decide, by decide⟩

/-- C10 amended: on a database in which every stored movie's director
slot holds a person object (so the pre-deletion log's `toString` cannot
crash), `Movie.destroy` never throws: an absent key leaves the database
unchanged (a logged no-op), and a present key is removed — exactly that
key, with every other movie entry and every other entity map
untouched. -/
theorem c10_destroy_spec (db : A6.DB6) (movieId : JSVal)
    (hdir : db.movies.all A6.movieHasDirector = true) :
    (aget db.movies (jsToKey movieId) = none → A6.Movie.destroy db movieId = Except.ok db) ∧
    (∀ m, aget db.movies (jsToKey movieId) = some m →
      A6.Movie.destroy db movieId =
        Except.ok { db with movies := adel db.movies (jsToKey movieId) } ∧
      aget (adel db.movies (jsToKey movieId)) (jsToKey movieId) = none ∧
      (∀ k, k ≠ jsToKey movieId → aget (adel db.movies (jsToKey movieId)) k = aget db.movies k)) := by
  constructor
  · intro hnone
    simp [A6.Movie.destroy, hnone]
  · intro m hsome
    have hmd : A6.movieHasDirector (jsToKey movieId, m) = true := aget_all hsome hdir
    have hstr : ∃ str, A6.Movie.toStringE m = Except.ok str := by
      unfold A6.movieHasDirector at hmd
      unfold A6.Movie.toStringE
      split at hmd
      next heq => rw [heq]; exact ⟨_, rfl⟩
      next => simp at hmd
    obtain ⟨str, hstr⟩ := hstr
    refine ⟨?_, aget_adel_self _ _, fun k hk => aget_adel_other _ _ _ hk⟩
    simp only [A6.Movie.destroy, hsome, hstr]
    rfl

/-- C6 counterexample: the claim's clause (c) says `checkSubjectArea`
returns `NoConstraintViolation` whenever the category equals the
discriminator and the value is a non-empty string; the whitespace-only
string `"   "` is non-empty, yet the checker (by design — its own error
message says so) trims it and returns a `RangeConstraintViolation`. -/
theorem c6_whitespace_subjectarea :
    jsIsString (.str "   ") = true ∧ (JSVal.str "   ") ≠ JSVal.str "" ∧
    parseInt (.num 1) = .num A6.BookCategoryEL.TEXTBOOK ∧
    A6.Book.checkSubjectArea (.str "   ") (.num 1) =
      CV.range "The subject area must be a non-empty string!" := by
  refine ⟨?_, ?_, ?_, ?_⟩ <;> decide

/-- Case analysis of `Book.checkSubjectArea`: mandatory exactly on
(textbook, absent value); base violation on (non-textbook, present
value); no violation on (textbook, string non-empty after trim). -/
theorem checkSubjectArea_cases (v c : JSVal) :
    (jsStrictEq (parseInt c) (.num A6.BookCategoryEL.TEXTBOOK) = true → truthy v = false →
      A6.Book.checkSubjectArea v c =
        CV.mandatoryValue "A subject area must be provided for a textbook!") ∧
    (truthy v = true ∨ jsStrictEq (parseInt c) (.num A6.BookCategoryEL.TEXTBOOK) = false →
      ∀ msg, A6.Book.checkSubjectArea v c ≠ CV.mandatoryValue msg) ∧
    (truthy v = true → jsStrictEq (parseInt c) (.num A6.BookCategoryEL.TEXTBOOK) = false →
      A6.Book.checkSubjectArea v c =
        CV.base "A subject area must not be provided if the book is not a textbook!") ∧
    (∀ s, jsStrictEq (parseInt c) (.num A6.BookCategoryEL.TEXTBOOK) = true → v = .str s →
      jsTrim s ≠ "" → A6.Book.checkSubjectArea v c = CV.noViolation) := by
  refine ⟨?_, ?_, ?_, ?_⟩
  · intro h1 h2
    simp [A6.Book.checkSubjectArea, h1, h2]
  · intro hcase msg
    simp only [A6.Book.checkSubjectArea]
    rcases hcase with ht | hd
    · rw [ht]
      simp only [Bool.not_true, Bool.and_false, Bool.false_eq_true, if_false]
      split_ifs <;> simp
    · rw [hd]
      simp only [Bool.false_and, Bool.false_eq_true, if_false]
      split_ifs <;> simp
  · intro ht hd
    simp [A6.Book.checkSubjectArea, ht, hd]
  · intro s h1 hv htrim
    subst hv
    have hs : s ≠ "" := fun hemp => htrim (by rw [hemp]; rfl)
    simp [A6.Book.checkSubjectArea, h1, truthy, hs, jsIsString, jsToKey, htrim]

/-- Case analysis of `Employee.checkDepartment` (discriminator
`MANAGER`): same trichotomy as `checkSubjectArea`. -/
theorem checkDepartment_cases (v c : JSVal) :
    (jsStrictEq (parseInt c) (.num A6.EmployeeCategoryEL.MANAGER) = true → truthy v = false →
      A6.Employee.checkDepartment v c =
        CV.mandatoryValue "A department must be provided for a manager!") ∧
    (truthy v = true ∨ jsStrictEq (parseInt c) (.num A6.EmployeeCategoryEL.MANAGER) = false →
      ∀ msg, A6.Employee.checkDepartment v c ≠ CV.mandatoryValue msg) ∧
    (truthy v = true → jsStrictEq (parseInt c) (.num A6.EmployeeCategoryEL.MANAGER) = false →
      A6.Employee.checkDepartment v c =
        CV.base "A department must not be provided if the employee is not a manager!") ∧
    (∀ s, jsStrictEq (parseInt c) (.num A6.EmployeeCategoryEL.MANAGER) = true → v = .str s →
      jsTrim s ≠ "" → A6.Employee.checkDepartment v c = CV.noViolation) := by
  refine ⟨?_, ?_, ?_, ?_⟩
  · intro h1 h2
    simp [A6.Employee.checkDepartment, h1, h2]
  · intro hcase msg
    simp only [A6.Employee.checkDepartment]
    rcases hcase with ht | hd
    · rw [ht]
      simp only [Bool.not_true, Bool.and_false, Bool.false_eq_true, if_false]
      split_ifs <;> simp
    · rw [hd]
      simp only [Bool.false_and, Bool.false_eq_true, if_false]
      split_ifs <;> simp
  · intro ht hd
    simp [A6.Employee.checkDepartment, ht, hd]
  · intro s h1 hv htrim
    subst hv
    have hs : s ≠ "" := fun hemp => htrim (by rw [hemp]; rfl)
    simp [A6.Employee.checkDepartment, h1, truthy, hs, jsIsString, jsToKey, htrim]

/-- Case analysis of `Movie.checkTvSeriesName` (discriminator
`TVSERIESEPISODE`): mandatory and no-violation clauses as for the other
two, but the "must not be provided" branch throws `ReferenceError`
instead of returning a violation (`ConstraintViolation` is not imported
by `Movie.mjs`). -/
theorem checkTvSeriesName_cases (v c : JSVal) :
    (jsStrictEq (parseInt c) (.num A6.MovieCategoryEL.TVSERIESEPISODE) = true →
      truthy v = false →
      A6.Movie.checkTvSeriesName v c =
        Except.ok (CV.mandatoryValue
          "A tv series name must be provided for a tv series episode!")) ∧
    (truthy v = true ∨
        jsStrictEq (parseInt c) (.num A6.MovieCategoryEL.TVSERIESEPISODE) = false →
      ∀ msg, A6.Movie.checkTvSeriesName v c ≠ Except.ok (CV.mandatoryValue msg)) ∧
    (truthy v = true →
      jsStrictEq (parseInt c) (.num A6.MovieCategoryEL.TVSERIESEPISODE) = false →
      A6.Movie.checkTvSeriesName v c = Except.error (.referenceError "ConstraintViolation")) ∧
    (∀ s, jsStrictEq (parseInt c) (.num A6.MovieCategoryEL.TVSERIESEPISODE) = true →
      v = .str s → jsTrim s ≠ "" →
      A6.Movie.checkTvSeriesName v c = Except.ok CV.noViolation) := by
  refine ⟨?_, ?_, ?_, ?_⟩
  · intro h1 h2
    simp [A6.Movie.checkTvSeriesName, h1, h2]
  · intro hcase msg
    simp only [A6.Movie.checkTvSeriesName]
    rcases hcase with ht | hd
    · rw [ht]
      simp only [Bool.not_true, Bool.and_false, Bool.false_eq_true, if_false]
      split_ifs <;> simp
    · rw [hd]
      simp only [Bool.false_and, Bool.false_eq_true, if_false]
      split_ifs <;> simp
  · intro ht hd
    simp [A6.Movie.checkTvSeriesName, ht, hd]
  · intro s h1 hv htrim
    subst hv
    have hs : s ≠ "" := fun hemp => htrim (by rw [hemp]; rfl)
    simp [A6.Movie.checkTvSeriesName, h1, truthy, hs, jsIsString, jsToKey, htrim]

/-- C6 amended: for each segment-field checker, (a) it returns the
mandatory-value violation exactly when the category equals the segment's
discriminator and the value is absent (falsy); (b) a present value with
a non-matching category yields the base `ConstraintViolation` for
`Book.checkSubjectArea` and `Employee.checkDepartment`, but a
`ReferenceError` for `Movie.checkTvSeriesName` (missing import); (c) a
matching category with a string value that is non-empty after trimming
yields `NoConstraintViolation` (a whitespace-only string instead yields
a range violation, see the counterexample). -/
theorem c6_segment_field_checkers :
    (∀ v c : JSVal,
      (jsStrictEq (parseInt c) (.num A6.BookCategoryEL.TEXTBOOK) = true → truthy v = false →
        A6.Book.checkSubjectArea v c =
          CV.mandatoryValue "A subject area must be provided for a textbook!") ∧
      (truthy v = true ∨ jsStrictEq (parseInt c) (.num A6.BookCategoryEL.TEXTBOOK) = false →
        ∀ msg, A6.Book.checkSubjectArea v c ≠ CV.mandatoryValue msg) ∧
      (truthy v = true → jsStrictEq (parseInt c) (.num A6.BookCategoryEL.TEXTBOOK) = false →
        A6.Book.checkSubjectArea v c =
          CV.base "A subject area must not be provided if the book is not a textbook!") ∧
      (∀ s, jsStrictEq (parseInt c) (.num A6.BookCategoryEL.TEXTBOOK) = true → v = .str s →
        jsTrim s ≠ "" → A6.Book.checkSubjectArea v c = CV.noViolation)) ∧
    (∀ v c : JSVal,
      (jsStrictEq (parseInt c) (.num A6.EmployeeCategoryEL.MANAGER) = true →
        truthy v = false →
        A6.Employee.checkDepartment v c =
          CV.mandatoryValue "A department must be provided for a manager!") ∧
      (truthy v = true ∨
          jsStrictEq (parseInt c) (.num A6.EmployeeCategoryEL.MANAGER) = false →
        ∀ msg, A6.Employee.checkDepartment v c ≠ CV.mandatoryValue msg) ∧
      (truthy v = true →
        jsStrictEq (parseInt c) (.num A6.EmployeeCategoryEL.MANAGER) = false →
        A6.Employee.checkDepartment v c =
          CV.base "A department must not be provided if the employee is not a manager!") ∧
      (∀ s, jsStrictEq (parseInt c) (.num A6.EmployeeCategoryEL.MANAGER) = true →
        v = .str s → jsTrim s ≠ "" →
        A6.Employee.checkDepartment v c = CV.noViolation)) ∧
    (∀ v c : JSVal,
      (jsStrictEq (parseInt c) (.num A6.MovieCategoryEL.TVSERIESEPISODE) = true →
        truthy v = false →
        A6.Movie.checkTvSeriesName v c =
          Except.ok (CV.mandatoryValue
            "A tv series name must be provided for a tv series episode!")) ∧
      (truthy v = true ∨
          jsStrictEq (parseInt c) (.num A6.MovieCategoryEL.TVSERIESEPISODE) = false →
        ∀ msg, A6.Movie.checkTvSeriesName v c ≠ Except.ok (CV.mandatoryValue msg)) ∧
      (truthy v = true →
        jsStrictEq (parseInt c) (.num A6.MovieCategoryEL.TVSERIESEPISODE) = false →
        A6.Movie.checkTvSeriesName v c =
          Except.error (.referenceError "ConstraintViolation")) ∧
      (∀ s, jsStrictEq (parseInt c) (.num A6.MovieCategoryEL.TVSERIESEPISODE) = true →
        v = .str s → jsTrim s ≠ "" →
        A6.Movie.checkTvSeriesName v c = Except.ok CV.noViolation)) :=
  ⟨checkSubjectArea_cases, checkDepartment_cases, checkTvSeriesName_cases⟩

/-- C6 amended, witnessed on concrete inputs for each clause kind. -/
theorem c6_segment_field_checkers_witness :
    A6.Book.checkSubjectArea .undefined (.num 1) =
      CV.mandatoryValue "A subject area must be provided for a textbook!" ∧
    A6.Employee.checkDepartment (.str "Sales") (.num 2) =
      CV.base "A department must not be provided if the employee is not a manager!" ∧
    A6.Movie.checkTvSeriesName (.str "x") (.num 1) =
      Except.error (.referenceError "ConstraintViolation") ∧
    A6.Book.checkSubjectArea (.str "Math") (.num 1) = CV.noViolation :=
  ⟨(c6_segment_field_checkers.1 .undefined (.num 1)).1 (by decide) (by decide),
   ((c6_segment_field_checkers.2.1 (.str "Sales") (.num 2)).2.2.1 (by decide) (by decide)),
   ((c6_segment_field_checkers.2.2 (.str "x") (.num 1)).2.2.1 (by decide) (by decide)),
   ((c6_segment_field_checkers.1 (.str "Math") (.num 1)).2.2.2 "Math" (by decide) rfl
     (by decide))⟩

/-- Binding a successful `Except` computation applies the
continuation. -/
theorem exceptBind_ok {ε α β : Type} (a : α) (f : α → Except ε β) :
    (Except.ok a >>= f : Except ε β) = f a := rfl

/-- Reading a cloned slot yields the original value (`cloneObject` skips
only `undefined`-valued slots, whose read is `undefined` either way). -/
theorem slotGet_cloneSlot (v : Option JSVal) : slotGet (A6.cloneSlot v) = slotGet v := by
  cases v with
  | none => rfl
  | some val => cases val <;> rfl

/-- The clone `Book.update` stores on rollback is field-for-field equal
to the original record. -/
theorem cloneBook_sameFields (b : A6.BookRec) :
    A6.BookRec.sameFields (A6.cloneBook b) b :=
  ⟨rfl, slotGet_cloneSlot _, slotGet_cloneSlot _, slotGet_cloneSlot _,
   slotGet_cloneSlot _, slotGet_cloneSlot _⟩

/-- The title step touches only `title`, and only when a truthy,
different title was supplied. -/
theorem updateTitleStep_spec (b : A6.BookRec) (t : JSVal) :
    (A6.Book.updateTitleStep b t).isbn = b.isbn ∧
    (A6.Book.updateTitleStep b t).year = b.year ∧
    (A6.Book.updateTitleStep b t).category = b.category ∧
    (A6.Book.updateTitleStep b t).subjectArea = b.subjectArea ∧
    (A6.Book.updateTitleStep b t).about = b.about ∧
    ((A6.Book.updateTitleStep b t).title = b.title ∨
      (A6.Book.updateTitleStep b t).title = some t) ∧
    (truthy t = false → (A6.Book.updateTitleStep b t).title = b.title) := by
  unfold A6.Book.updateTitleStep
  split
  next hcond =>
    refine ⟨rfl, rfl, rfl, rfl, rfl, Or.inr rfl, ?_⟩
    intro hf
    rw [Bool.and_eq_true, hf] at hcond
    simp at hcond
  next => exact ⟨rfl, rfl, rfl, rfl, rfl, Or.inl rfl, fun _ => rfl⟩

/-- The year step touches only `year`. -/
theorem updateYearStep_spec (b : A6.BookRec) (y : JSVal) :
    (A6.Book.updateYearStep b y).isbn = b.isbn ∧
    (A6.Book.updateYearStep b y).title = b.title ∧
    (A6.Book.updateYearStep b y).category = b.category ∧
    (A6.Book.updateYearStep b y).subjectArea = b.subjectArea ∧
    (A6.Book.updateYearStep b y).about = b.about ∧
    ((A6.Book.updateYearStep b y).year = b.year ∨
      (A6.Book.updateYearStep b y).year = some y) ∧
    (truthy y = false → (A6.Book.updateYearStep b y).year = b.year) := by
  unfold A6.Book.updateYearStep
  split
  next hcond =>
    refine ⟨rfl, rfl, rfl, rfl, rfl, Or.inr rfl, ?_⟩
    intro hf
    rw [Bool.and_eq_true, hf] at hcond
    simp at hcond
  next => exact ⟨rfl, rfl, rfl, rfl, rfl, Or.inl rfl, fun _ => rfl⟩

/-- A successful category step touches only `category`, storing the
`parseInt`-ed value, and changes nothing when no category was
supplied. -/
theorem updateCategoryStep_spec (b : A6.BookRec) (c : JSVal) (b' : A6.BookRec)
    (h : A6.Book.updateCategoryStep b c = Except.ok b') :
    b'.isbn = b.isbn ∧ b'.title = b.title ∧ b'.year = b.year ∧
    b'.subjectArea = b.subjectArea ∧ b'.about = b.about ∧
    (b'.category = b.category ∨ b'.category = some (parseInt c)) ∧
    (truthy c = false → b'.category = b.category) := by
  unfold A6.Book.updateCategoryStep at h
  split at h
  next htr =>
    split at h
    next =>
      unfold A6.Book.setCategory at h
      split at h
      next => cases h
      next =>
        split at h
        next =>
          cases h
          refine ⟨rfl, rfl, rfl, rfl, rfl, Or.inr rfl, ?_⟩
          intro hf; rw [hf] at htr; cases htr
        next => cases h
    next =>
      split at h
      next => cases h
      next =>
        cases h
        exact ⟨rfl, rfl, rfl, rfl, rfl, Or.inl rfl, fun _ => rfl⟩
  next =>
    split at h
    next => cases h
    next =>
      cases h
      exact ⟨rfl, rfl, rfl, rfl, rfl, Or.inl rfl, fun _ => rfl⟩

/-- A successful subject-area step touches only `subjectArea`. -/
theorem updateSubjectAreaStep_spec (b : A6.BookRec) (v : JSVal) (b' : A6.BookRec)
    (h : A6.Book.updateSubjectAreaStep b v = Except.ok b') :
    b'.isbn = b.isbn ∧ b'.title = b.title ∧ b'.year = b.year ∧
    b'.category = b.category ∧ b'.about = b.about ∧
    (b'.subjectArea = b.subjectArea ∨ b'.subjectArea = some v) ∧
    (truthy v = false → b'.subjectArea = b.subjectArea) := by
  unfold A6.Book.updateSubjectAreaStep at h
  split at h
  next hcond =>
    unfold A6.Book.setSubjectArea at h
    split at h
    next =>
      cases h
      refine ⟨rfl, rfl, rfl, rfl, rfl, Or.inr rfl, ?_⟩
      intro hf
      rw [Bool.and_eq_true, hf] at hcond
      simp at hcond
    next => cases h
  next =>
    cases h
    exact ⟨rfl, rfl, rfl, rfl, rfl, Or.inl rfl, fun _ => rfl⟩

/-- A successful about step touches only `about`. -/
theorem updateAboutStep_spec (b : A6.BookRec) (v : JSVal) (b' : A6.BookRec)
    (h : A6.Book.updateAboutStep b v = Except.ok b') :
    b'.isbn = b.isbn ∧ b'.title = b.title ∧ b'.year = b.year ∧
    b'.category = b.category ∧ b'.subjectArea = b.subjectArea ∧
    (b'.about = b.about ∨ b'.about = some v) ∧
    (truthy v = false → b'.about = b.about) := by
  unfold A6.Book.updateAboutStep at h
  split at h
  next hcond =>
    unfold A6.Book.setAbout at h
    split at h
    next =>
      cases h
      refine ⟨rfl, rfl, rfl, rfl, rfl, Or.inr rfl, ?_⟩
      intro hf
      rw [Bool.and_eq_true, hf] at hcond
      simp at hcond
    next => cases h
  next =>
    cases h
    exact ⟨rfl, rfl, rfl, rfl, rfl, Or.inl rfl, fun _ => rfl⟩

/-- C8: `Book.update` is atomic.  If any step throws (a setter's
constraint violation or the explicit frozen-value throws for
changing/unsetting `category`), the `catch` re-stores the pre-update
clone, which is field-for-field equal to the record's previous state,
and no other key changes; if no violation occurs, only the supplied
fields among title, year, category, subjectArea, about receive (exactly)
the supplied new values and every other field is unchanged. -/
theorem c8_book_update_atomic (books : AList A6.BookRec) (s : A6.BookUpdateSlots)
    (book : A6.BookRec) (h : aget books (jsToKey s.isbn) = some book) :
    (∀ e, A6.Book.updateBody book s = Except.error e →
      A6.Book.update books s =
        Except.ok (aset books (jsToKey s.isbn) (A6.cloneBook book)) ∧
      A6.BookRec.sameFields (A6.cloneBook book) book ∧
      aget (aset books (jsToKey s.isbn) (A6.cloneBook book)) (jsToKey s.isbn) =
        some (A6.cloneBook book) ∧
      (∀ k, k ≠ jsToKey s.isbn →
        aget (aset books (jsToKey s.isbn) (A6.cloneBook book)) k = aget books k)) ∧
    (∀ b', A6.Book.updateBody book s = Except.ok b' →
      A6.Book.update books s = Except.ok (aset books (jsToKey s.isbn) b') ∧
      b'.isbn = book.isbn ∧
      (truthy s.title = false → b'.title = book.title) ∧
      (b'.title = book.title ∨ b'.title = some s.title) ∧
      (truthy s.year = false → b'.year = book.year) ∧
      (b'.year = book.year ∨ b'.year = some s.year) ∧
      (truthy s.category = false → b'.category = book.category) ∧
      (b'.category = book.category ∨ b'.category = some (parseInt s.category)) ∧
      (truthy s.subjectArea = false → b'.subjectArea = book.subjectArea) ∧
      (b'.subjectArea = book.subjectArea ∨ b'.subjectArea = some s.subjectArea) ∧
      (truthy s.about = false → b'.about = book.about) ∧
      (b'.about = book.about ∨ b'.about = some s.about)) := by
  constructor
  · intro e he
    refine ⟨?_, cloneBook_sameFields book, aget_aset_self _ _ _,
      fun k hk => aget_aset_other _ _ _ _ hk⟩
    simp [A6.Book.update, h, he]
  · intro b' hb
    have hupd : A6.Book.update books s = Except.ok (aset books (jsToKey s.isbn) b') := by
      simp [A6.Book.update, h, hb]
    simp only [A6.Book.updateBody] at hb
    cases hc : A6.Book.updateCategoryStep (A6.Book.updateYearStep
        (A6.Book.updateTitleStep book s.title) s.year) s.category with
    | error e => rw [hc] at hb; cases hb
    | ok b3 =>
        rw [hc, exceptBind_ok] at hb
        cases hs : A6.Book.updateSubjectAreaStep b3 s.subjectArea with
        | error e => rw [hs] at hb; cases hb
        | ok b4 =>
            rw [hs, exceptBind_ok] at hb
            cases ha : A6.Book.updateAboutStep b4 s.about with
            | error e => rw [ha] at hb; cases hb
            | ok b5 =>
                rw [ha, exceptBind_ok] at hb
                injection hb with hb5
                subst hb5
                obtain ⟨t1, t2, t3, t4, t5, t6, t7⟩ := updateTitleStep_spec book s.title
                obtain ⟨y1, y2, y3, y4, y5, y6, y7⟩ :=
                  updateYearStep_spec (A6.Book.updateTitleStep book s.title) s.year
                obtain ⟨k1, k2, k3, k4, k5, k6, k7⟩ := updateCategoryStep_spec _ _ _ hc
                obtain ⟨s1, s2, s3, s4, s5, s6, s7⟩ := updateSubjectAreaStep_spec _ _ _ hs
                obtain ⟨a1, a2, a3, a4, a5, a6, a7⟩ := updateAboutStep_spec _ _ _ ha
                refine ⟨hupd, ?_, ?_, ?_, ?_, ?_, ?_, ?_, ?_, ?_, ?_, ?_⟩
                · rw [a1, s1, k1, y1, t1]
                · intro hf
                  rw [a2, s2, k2, y2, t7 hf]
                · rw [a2, s2, k2, y2]
                  rcases t6 with h6 | h6
                  · exact Or.inl h6
                  · exact Or.inr h6
                · intro hf
                  rw [a3, s3, k3, y7 hf, t2]
                · rw [a3, s3, k3]
                  rcases y6 with h6 | h6
                  · rw [h6, t2]; exact Or.inl rfl
                  · exact Or.inr h6
                · intro hf
                  rw [a4, s4, k7 hf, y3, t3]
                · rw [a4, s4]
                  rcases k6 with h6 | h6
                  · rw [h6, y3, t3]; exact Or.inl rfl
                  · exact Or.inr h6
                · intro hf
                  rw [a5, s7 hf, k4, y4, t4]
                · rw [a5]
                  rcases s6 with h6 | h6
                  · rw [h6, k4, y4, t4]; exact Or.inl rfl
                  · exact Or.inr h6
                · intro hf
                  rw [a7 hf, s5, k5, y5, t5]
                · rcases a6 with h6 | h6
                  · rw [h6, s5, k5, y5, t5]; exact Or.inl rfl
                  · exact Or.inr h6

/-- C8, witnessed: an update hitting the frozen-value branch restores
the clone (map otherwise unchanged); an update changing only the title
stores exactly the new title. -/
theorem c8_book_update_atomic_witness :
    A6.Book.update c8books c8slotsFrozen =
      Except.ok (aset c8books (jsToKey c8slotsFrozen.isbn) (A6.cloneBook c8book)) ∧
    A6.Book.update c8books c8slotsOk =
      Except.ok (aset c8books (jsToKey c8slotsOk.isbn)
        { c8book with title := some (.str "New") }) :=
  have h1 := (c8_book_update_atomic c8books c8slotsFrozen c8book (by decide)).1
    (.thrown (.frozenValue "The book category must not be unset!")) (by decide)
  have h2 := (c8_book_update_atomic c8books c8slotsOk c8book (by decide)).2
    { c8book with title := some (.str "New") } (by decide)
  ⟨h1.1, h2.1⟩

/-- C9: every `add` is all-or-nothing.  A constructor exception (of any
kind — constraint violation or runtime error) leaves the class's entity
map completely unchanged, because the insertion syntactically follows
the `new` expression inside the `try` (Person.mjs 142-154,
Movie.mjs 340-348, Book.mjs 192-204); a successful construction inserts
exactly one record, under the standard-identifier key, leaving every
other key (and, for Movie/Book, every other entity map, as the record
update shows) unchanged. -/
theorem c9_add_all_or_nothing :
    (∀ (db : A6.DB6) (pid nm : JSVal),
      (∀ e, A6.Person.construct db.persons "Person" pid nm = Except.error e →
        A6.Person.add db pid nm = db) ∧
      (∀ p, A6.Person.construct db.persons "Person" pid nm = Except.ok p →
        A6.Person.add db pid nm = { db with persons := aset db.persons (jsToKey p.personId) p } ∧
        aget (A6.Person.add db pid nm).persons (jsToKey p.personId) = some p ∧
        (∀ k, k ≠ jsToKey p.personId →
          aget (A6.Person.add db pid nm).persons k = aget db.persons k))) ∧
    (∀ (db : A6.DB6) (s : A6.MovieSlots),
      (∀ e, A6.Movie.construct db s = Except.error e → A6.Movie.add db s = db) ∧
      (∀ m, A6.Movie.construct db s = Except.ok m →
        A6.Movie.add db s = { db with movies := aset db.movies (jsToKey m.movieId) m } ∧
        aget (A6.Movie.add db s).movies (jsToKey m.movieId) = some m ∧
        (∀ k, k ≠ jsToKey m.movieId →
          aget (A6.Movie.add db s).movies k = aget db.movies k))) ∧
    (∀ (db : A6.DB6) (s : A6.BookSlots),
      (∀ e, A6.Book.construct db.books s = Except.error e → A6.Book.add db s = db) ∧
      (∀ b, A6.Book.construct db.books s = Except.ok b →
        A6.Book.add db s = { db with books := aset db.books (jsToKey b.isbn) b } ∧
        aget (A6.Book.add db s).books (jsToKey b.isbn) = some b ∧
        (∀ k, k ≠ jsToKey b.isbn →
          aget (A6.Book.add db s).books k = aget db.books k))) := by
  refine ⟨fun db pid nm => ⟨?_, ?_⟩, fun db s => ⟨?_, ?_⟩, fun db s => ⟨?_, ?_⟩⟩
  · intro e he; simp [A6.Person.add, he]
  · intro p hp
    have h1 : A6.Person.add db pid nm =
        { db with persons := aset db.persons (jsToKey p.personId) p } := by
      simp [A6.Person.add, hp]
    refine ⟨h1, ?_, ?_⟩
    · rw [h1]; exact aget_aset_self _ _ _
    · intro k hk; rw [h1]; exact aget_aset_other _ _ _ _ hk
  · intro e he; simp [A6.Movie.add, he]
  · intro m hm
    have h1 : A6.Movie.add db s =
        { db with movies := aset db.movies (jsToKey m.movieId) m } := by
      simp [A6.Movie.add, hm]
    refine ⟨h1, ?_, ?_⟩
    · rw [h1]; exact aget_aset_self _ _ _
    · intro k hk; rw [h1]; exact aget_aset_other _ _ _ _ hk
  · intro e he; simp [A6.Book.add, he]
  · intro b hb
    have h1 : A6.Book.add db s =
        { db with books := aset db.books (jsToKey b.isbn) b } := by
      simp [A6.Book.add, hb]
    refine ⟨h1, ?_, ?_⟩
    · rw [h1]; exact aget_aset_self _ _ _
    · intro k hk; rw [h1]; exact aget_aset_other _ _ _ _ hk

/-- C9, witnessed: a valid person is inserted under its id key; a
person whose name fails validation leaves the map untouched. -/
theorem c9_add_all_or_nothing_witness :
    A6.Person.add {} (.num 3) (.str "Al") =
      { ({} : A6.DB6) with
        persons := aset ([] : AList A6.PersonRec) (jsToKey (JSVal.num 3))
          { personId := .num 3, name := .str "Al" } } ∧
    aget (A6.Person.add {} (.num 3) (.str "Al")).persons (jsToKey (JSVal.num 3)) =
      some { personId := .num 3, name := .str "Al" } ∧
    A6.Person.add {} (.num 3) (.num 5) = {} :=
  have hok := (c9_add_all_or_nothing.1 {} (.num 3) (.str "Al")).2
    { personId := .num 3, name := .str "Al" } (by decide)
  have herr := (c9_add_all_or_nothing.1 {} (.num 3) (.num 5)).1
    (.thrown (.range "The name must be a non-empty string!")) (by decide)
  ⟨hok.1, hok.2.1, herr⟩

/-- C10 amended, witnessed: on a two-movie database whose movies have
directors, destroying key 1 removes exactly it and keeps key 2. -/
theorem c10_destroy_spec_witness :
    A6.Movie.destroy c10wdb (.num 1) =
      Except.ok { c10wdb with movies := adel c10wdb.movies (jsToKey (.num 1)) } ∧
    aget (adel c10wdb.movies (jsToKey (.num 1))) (jsToKey (.num 1)) = none ∧
    aget (adel c10wdb.movies (jsToKey (.num 1))) "2" = aget c10wdb.movies "2" :=
  have h := (c10_destroy_spec c10wdb (.num 1) (by decide)).2 c10movie (by decide)
  ⟨h.1, h.2.1, h.2.2 "2" (by decide)⟩

end Webapp
